import Mathlib

/-!
The notification record of libnotify, its hint table, and `main` of `notify-send`

A shallow embedding of `src/libnotify/notifynotification.c` and of the parts of
`src/tools/notify-send.c` that feed it.

Conventions of the embedding

* `gint` values are `Int`; every arithmetic step of the C code is followed by
  `gint_wrap` (two's complement, 32 bits).  `guint32`, `guchar`, `gsize` and
  `guint64` values are `Nat`, reduced with an explicit `%` where C converts.
* A nullable `gchar *` is an `Option String` (`none` is `NULL`).  Hash-table keys
  are dereferenced by `g_str_hash`, so they are plain `String`s.
* Pointers without structure (`gpointer`, function pointers) are `Nat`, `0` is `NULL`.
* Calls into GLib, GDK, GTK and D-Bus are modelled by what they are documented to do;
  what the outside world answers (the bus, the server) is a parameter.
-/

namespace Libnotify

/-! ## Machine integers -/

/-- Largest `gint`. -/
def G_MAXINT : Int := 2147483647

/-- Reduction of an integer to the 32-bit two's complement range of `gint`. -/
def gint_wrap (x : Int) : Int := (x + 2147483648) % 4294967296 - 2147483648

/-- Conversion of a `gint` to `gsize` (64 bits, unsigned): reduction modulo `2^64`. -/
def gint_to_gsize (x : Int) : Nat := (x % 18446744073709551616).toNat

/-- Conversion to `guchar`: reduction modulo `2^8`. -/
def to_guchar (x : Nat) : Nat := x % 256

/-- Conversion of a `gsize` to `guint` (32 bits, unsigned): reduction modulo `2^32`. -/
def to_guint (x : Nat) : Nat := x % 4294967296

/-! ## Single and double precision values

A `gdouble` is its IEEE 754 binary64 bit pattern and a `gfloat` its binary32 bit
pattern. -/

/-- Bit pattern of a `gdouble`. -/
structure gdouble where
  bits : Nat
deriving DecidableEq, Repr

/-- Bit pattern of a `gfloat`. -/
structure gfloat where
  bits : Nat
deriving DecidableEq, Repr

/-- Round `sig / 2^k` to the nearest integer, ties to even. -/
def round_shift (sig k : Nat) : Nat :=
  let q := sig / 2 ^ k
  let r := sig % 2 ^ k
  if 2 * r > 2 ^ k ∨ (2 * r = 2 ^ k ∧ q % 2 = 1) then q + 1 else q

/-- The C conversion from `gdouble` to `gfloat` that happens when a `gdouble` is passed
for a `gfloat` parameter: round to nearest, ties to even; too large magnitudes become
infinite, a NaN stays a (quiet) NaN. -/
def gdouble_to_gfloat (d : gdouble) : gfloat :=
  let s := d.bits / 2 ^ 63 % 2
  let e := d.bits / 2 ^ 52 % 2048
  let f := d.bits % 2 ^ 52
  let sign := s * 2 ^ 31
  if e = 2047 then
    if f = 0 then ⟨sign + 255 * 2 ^ 23⟩
    else
      -- the upper 23 bits of the payload, with the quiet bit set
      let p := f / 2 ^ 29
      ⟨sign + 255 * 2 ^ 23 + (if p / 2 ^ 22 % 2 = 1 then p else p + 2 ^ 22)⟩
  else
    -- the magnitude is `sig * 2^(ex - 1075)`
    let sig := if e = 0 then f else 2 ^ 52 + f
    let ex := if e = 0 then 1 else e
    -- biased binary32 exponent when 24 bits of `sig` are kept
    let k := if ex ≥ 897 then 29 else 29 + (897 - ex)
    let exf := if ex ≥ 897 then ex - 896 else 1
    let m := (exf - 1) * 2 ^ 23 + round_shift sig k
    if m ≥ 255 * 2 ^ 23 then ⟨sign + 255 * 2 ^ 23⟩ else ⟨sign + m⟩

/-! ## GValue and the hint table -/

/-- A `GValue` as this library builds them: the constructor is the `GType` the value was
initialised with. -/
inductive GValue where
  /-- Tagged `G_TYPE_INT`. -/
  | int (v : Int)
  /-- Tagged `G_TYPE_FLOAT`. -/
  | float (v : gfloat)
  /-- Tagged `G_TYPE_UCHAR`. -/
  | uchar (v : Nat)
  /-- Tagged `G_TYPE_STRING`; the string may be `NULL`. -/
  | string (v : Option String)
  /-- Tagged `G_TYPE_BOOLEAN`. -/
  | boolean (v : Bool)
  /-- A `GArray` of `guchar`, `dbus_g_type_get_collection ("GArray", G_TYPE_UCHAR)`. -/
  | uchar_array (v : List Nat)
  /-- Tagged `G_TYPE_VALUE_ARRAY`: a `GValueArray`, sent as a struct. -/
  | value_array (v : List GValue)

/-- The type tags of the values above, under the names the specification uses. -/
inductive HintType where
  | Int32 | Float | Byte | String | Bool | ByteArray | Struct
deriving DecidableEq, Repr

/-- Type tag of a value. -/
def GValue.type : GValue → HintType
  | .int _ => .Int32
  | .float _ => .Float
  | .uchar _ => .Byte
  | .string _ => .String
  | .boolean _ => .Bool
  | .uchar_array _ => .ByteArray
  | .value_array _ => .Struct

/-- The hint table `g_hash_table_new_full (g_str_hash, g_str_equal, ...)`: a finite map
from strings, compared byte for byte by `g_str_equal`, to values.  The entries are kept
in a list whose order carries no meaning; no key occurs twice. -/
structure GHashTable where
  entries : List (String × GValue)
  keys_nodup : (entries.map Prod.fst).Nodup

/-- A new, empty table. -/
def g_hash_table_new_full : GHashTable := ⟨[], List.nodup_nil⟩

/-- Insertion `g_hash_table_insert`: a value stored under an equal key is replaced
(and released), otherwise the entry is added. -/
def g_hash_table_insert (t : GHashTable) (k : String) (v : GValue) : GHashTable :=
  ⟨(k, v) :: t.entries.filter (fun e => e.1 != k), by
    rw [List.map_cons, List.nodup_cons]
    refine ⟨?_, ((List.filter_sublist t.entries).map Prod.fst).nodup t.keys_nodup⟩
    intro hk
    rcases List.mem_map.1 hk with ⟨e, he, hek⟩
    have hne := (List.mem_filter.1 he).2
    simp [hek] at hne⟩

/-- Lookup of a key, `g_hash_table_lookup`. -/
def g_hash_table_lookup (t : GHashTable) (k : String) : Option GValue :=
  (t.entries.find? (fun e => e.1 == k)).map Prod.snd

/-- Number of entries stored under a key. -/
def g_hash_table_count (t : GHashTable) (k : String) : Nat :=
  t.entries.countP (fun e => e.1 == k)

/-- Number of entries, `g_hash_table_size`. -/
def g_hash_table_size (t : GHashTable) : Nat := t.entries.length

/-- Removal of every entry for which the callback answers `TRUE`,
`g_hash_table_foreach_remove`. -/
def g_hash_table_foreach_remove (t : GHashTable) (f : String → GValue → Bool) : GHashTable :=
  ⟨t.entries.filter (fun e => !f e.1 e.2),
    ((List.filter_sublist t.entries).map Prod.fst).nodup t.keys_nodup⟩

/-! ## The collaborators' data -/

/-- What the library reads from a `GtkWidget`: the origin of its window on the screen
(`gdk_window_get_origin`), `GTK_WIDGET_NO_WINDOW`, and its allocation. -/
structure GtkWidget where
  origin_x : Int
  origin_y : Int
  no_window : Bool
  allocation_x : Int
  allocation_y : Int
  allocation_width : Int
  allocation_height : Int
deriving DecidableEq, Repr

/-- What the library reads from a `GdkPixbuf`.  `pixels` is the memory behind
`gdk_pixbuf_get_pixels`, byte by byte from offset `0`. -/
structure GdkPixbuf where
  width : Int
  height : Int
  rowstride : Int
  n_channels : Int
  bits_per_sample : Int
  has_alpha : Bool
  pixels : Nat → Nat

/-- The proxy to the notification service, with the number of handlers connected to
its `NotificationClosed` signal for this notification. -/
structure DBusGProxy where
  closed_handlers : Nat
deriving DecidableEq, Repr

/-! ## The notification record -/

/-- Modelled from the spec: the constant `NOTIFY_TIMEOUT_DEFAULT` of the header
`notifynotification.h`, which is not among the sources; `-1` lets the server choose. -/
def NOTIFY_TIMEOUT_DEFAULT : Int := -1

/-- The private part of a notification, `struct NotifyNotificationPrivate`. -/
structure NotifyNotificationPrivate where
  id : Nat
  summary : Option String
  message : Option String
  icon_name : Option String
  timeout : Int
  actions : List String
  hints : GHashTable
  attached_widget : Option GtkWidget
  widget_old_x : Int
  widget_old_y : Int
  user_data : Nat
  user_data_free_func : Nat
  updates_pending : Bool
  proxy : Option DBusGProxy

/-- The instance initialiser `notify_notification_init`. -/
def notify_notification_init : NotifyNotificationPrivate :=
  { id := 0
    summary := none
    message := none
    icon_name := none
    timeout := NOTIFY_TIMEOUT_DEFAULT
    actions := []
    hints := g_hash_table_new_full
    attached_widget := none
    user_data := 0
    user_data_free_func := 0
    updates_pending := false
    widget_old_x := 0
    widget_old_y := 0
    proxy := none }

/-! ## Allocation

`g_new0`, `g_strdup`, `g_value_array_new` and `g_array_sized_new` end the program when
memory is exhausted; a call that returns has returned memory. -/

/-- The allocation `g_new0 (GValue, 1)`. -/
def g_new0_GValue : Option Unit := some ()

/-- The allocation `g_value_array_new (n)`: an array without elements. -/
def g_value_array_new (_n_prealloced : Nat) : Option (List GValue) := some []

/-- The allocation `g_array_sized_new (FALSE, FALSE, sizeof (guchar), reserved_size)`: an
empty array; `reserved_size` is a `guint`. -/
def g_array_sized_new (_reserved_size : Nat) : Option (List Nat) := some []

/-- Copy `len` elements from memory to the end of an array, `g_array_append_vals`; `len`
is a `guint`, so a caller that holds a `gsize` hands on its low 32 bits. -/
def g_array_append_vals (a : List Nat) (data : Nat → Nat) (len : Nat) : List Nat :=
  a ++ (List.range len).map data

/-- Copy of a string, `g_strdup`; the copy of `NULL` is `NULL`. -/
def g_strdup (s : Option String) : Option String := s

/-! ## Icon data -/

/-- The helper `_gvalue_array_append_int`. -/
def _gvalue_array_append_int (array : List GValue) (i : Int) : Bool × List GValue :=
  match g_new0_GValue with
  | none => (false, array)
  | some _ => (true, array ++ [GValue.int i])

/-- The helper `_gvalue_array_append_bool`. -/
def _gvalue_array_append_bool (array : List GValue) (b : Bool) : Bool × List GValue :=
  match g_new0_GValue with
  | none => (false, array)
  | some _ => (true, array ++ [GValue.boolean b])

/-- The helper `_gvalue_array_append_byte_array`; its `gsize len` is converted to `guint`
where it is handed to `g_array_sized_new` and to `g_array_append_vals`. -/
def _gvalue_array_append_byte_array (array : List GValue) (bytes : Nat → Nat) (len : Nat) :
    Bool × List GValue :=
  match g_array_sized_new (to_guint len) with
  | none => (false, array)
  | some byte_array =>
    let byte_array := g_array_append_vals byte_array bytes (to_guint len)
    match g_new0_GValue with
    | none => (false, array)
    | some _ => (true, array ++ [GValue.uchar_array byte_array])

/-- The length `image_len` that `notify_notification_set_icon_data_from_pixbuf` computes:
the `gint` expression
`(height - 1) * rowstride + width * ((n_channels * bits_per_sample + 7) / 8)`
converted to `gsize`. -/
def pixbuf_image_len (icon : GdkPixbuf) : Nat :=
  gint_to_gsize
    (gint_wrap
      (gint_wrap (gint_wrap (icon.height - 1) * icon.rowstride) +
        gint_wrap (icon.width *
          Int.tdiv (gint_wrap (gint_wrap (icon.n_channels * icon.bits_per_sample) + 7)) 8)))

/-- The function `notify_notification_set_icon_data_from_pixbuf`. -/
def notify_notification_set_icon_data_from_pixbuf (priv : NotifyNotificationPrivate)
    (icon : GdkPixbuf) : Bool × NotifyNotificationPrivate :=
  let width := icon.width
  let height := icon.height
  let rowstride := icon.rowstride
  let n_channels := icon.n_channels
  let bits_per_sample := icon.bits_per_sample
  let alpha := icon.has_alpha
  let image_len := pixbuf_image_len icon
  let image := icon.pixels
  match g_value_array_new 8 with
  | none => (false, priv)
  | some image_struct =>
    let image_struct := (_gvalue_array_append_int image_struct width).2
    let image_struct := (_gvalue_array_append_int image_struct height).2
    let image_struct := (_gvalue_array_append_int image_struct rowstride).2
    let image_struct := (_gvalue_array_append_bool image_struct alpha).2
    let image_struct := (_gvalue_array_append_int image_struct bits_per_sample).2
    let image_struct := (_gvalue_array_append_int image_struct n_channels).2
    let image_struct := (_gvalue_array_append_byte_array image_struct image image_len).2
    match g_new0_GValue with
    | none => (false, priv)
    | some _ =>
      let value := GValue.value_array image_struct
      match g_strdup (some "icon_data") with
      | none => (false, priv)
      | some key_dup => (true, { priv with hints := g_hash_table_insert priv.hints key_dup value })

/-- The length the specification states, in its own words:
`(height-1)*rowstride + width*ceil(channels*bits_per_sample/8)`. -/
def spec_image_len (width height rowstride channels bits_per_sample : Int) : Int :=
  (height - 1) * rowstride + width * Int.ceil ((channels * bits_per_sample : ℚ) / 8)

/-! ## Hint setters -/

/-- The function `notify_notification_set_hint_int32`. -/
def notify_notification_set_hint_int32 (priv : NotifyNotificationPrivate) (key : String)
    (value : Int) : Bool × NotifyNotificationPrivate :=
  let hint_value := GValue.int value
  let key_dup := key
  (true, { priv with hints := g_hash_table_insert priv.hints key_dup hint_value })

/-- The function `notify_notification_set_hint_double`: the value is initialised as
`G_TYPE_FLOAT` and set with `g_value_set_float`, whose parameter is a `gfloat`. -/
def notify_notification_set_hint_double (priv : NotifyNotificationPrivate) (key : String)
    (value : gdouble) : Bool × NotifyNotificationPrivate :=
  let hint_value := GValue.float (gdouble_to_gfloat value)
  let key_dup := key
  (true, { priv with hints := g_hash_table_insert priv.hints key_dup hint_value })

/-- The function `notify_notification_set_hint_byte`; `value` is a `guchar`. -/
def notify_notification_set_hint_byte (priv : NotifyNotificationPrivate) (key : String)
    (value : Nat) : Bool × NotifyNotificationPrivate :=
  let hint_value := GValue.uchar value
  let key_dup := key
  (true, { priv with hints := g_hash_table_insert priv.hints key_dup hint_value })

/-- The function `notify_notification_set_hint_byte_array`; `value` is the memory the
bytes are copied from, and the `gsize len` is converted to `guint` where it is handed to
`g_array_sized_new` and to `g_array_append_vals`. -/
def notify_notification_set_hint_byte_array (priv : NotifyNotificationPrivate) (key : String)
    (value : Nat → Nat) (len : Nat) : Bool × NotifyNotificationPrivate :=
  let byte_array := g_array_append_vals [] value (to_guint len)
  let hint_value := GValue.uchar_array byte_array
  let key_dup := key
  (true, { priv with hints := g_hash_table_insert priv.hints key_dup hint_value })

/-- The function `notify_notification_set_hint_string`. -/
def notify_notification_set_hint_string (priv : NotifyNotificationPrivate) (key : String)
    (value : Option String) : Bool × NotifyNotificationPrivate :=
  let hint_value := GValue.string value
  let key_dup := key
  (true, { priv with hints := g_hash_table_insert priv.hints key_dup hint_value })

/-- One call of a hint setter, with its value argument. -/
inductive HintSetter where
  | int32 (value : Int)
  | double (value : gdouble)
  | byte (value : Nat)
  | byte_array (value : Nat → Nat) (len : Nat)
  | string (value : Option String)

/-- Run the setter a `HintSetter` stands for. -/
def HintSetter.run (s : HintSetter) (priv : NotifyNotificationPrivate) (key : String) :
    Bool × NotifyNotificationPrivate :=
  match s with
  | .int32 v => notify_notification_set_hint_int32 priv key v
  | .double v => notify_notification_set_hint_double priv key v
  | .byte v => notify_notification_set_hint_byte priv key v
  | .byte_array v len => notify_notification_set_hint_byte_array priv key v len
  | .string v => notify_notification_set_hint_string priv key v

/-- The function `notify_notification_clear_hints`; `_remove_all` answers `TRUE`. -/
def notify_notification_clear_hints (priv : NotifyNotificationPrivate) :
    NotifyNotificationPrivate :=
  { priv with hints := g_hash_table_foreach_remove priv.hints (fun _ _ => true) }

/-! ## Construction and update -/

/-- The constructor `notify_notification_new`.  A failed `g_assert` ends the program:
the result is `none`. -/
def notify_notification_new (summary message icon : Option String)
    (attach : Option GtkWidget) : Option NotifyNotificationPrivate :=
  if summary = none then none
  else if message = none then none
  else
    let obj := notify_notification_init
    let obj := { obj with summary := g_strdup summary }
    let obj := { obj with message := g_strdup message }
    let obj := { obj with icon_name := g_strdup icon }
    match attach with
    | some w => some { obj with attached_widget := some w }
    | none => some obj

/-- The function `notify_notification_update`. -/
def notify_notification_update (priv : NotifyNotificationPrivate)
    (summary message icon : Option String) : Bool × NotifyNotificationPrivate :=
  let priv := { priv with summary := g_strdup summary }
  let priv := { priv with message := g_strdup message }
  let priv := { priv with icon_name := g_strdup icon }
  let priv := { priv with updates_pending := true }
  (true, priv)

/-! ## Showing a notification -/

/-- The pre-show hook `_notify_notification_update_applet_hints`. -/
def _notify_notification_update_applet_hints (priv : NotifyNotificationPrivate) :
    Bool × NotifyNotificationPrivate :=
  match priv.attached_widget with
  | none => (false, priv)
  | some widget =>
    let x := widget.origin_x
    let y := widget.origin_y
    let x := if widget.no_window then gint_wrap (x + widget.allocation_x) else x
    let y := if widget.no_window then gint_wrap (y + widget.allocation_y) else y
    let x := gint_wrap (x + Int.tdiv widget.allocation_width 2)
    let y := gint_wrap (y + Int.tdiv widget.allocation_height 2)
    let stx : Bool × NotifyNotificationPrivate :=
      if x ≠ priv.widget_old_x then
        (true, { (notify_notification_set_hint_int32 priv "x" x).2 with widget_old_x := x })
      else (false, priv)
    let sty : Bool × NotifyNotificationPrivate :=
      if y ≠ stx.2.widget_old_y then
        (true, { (notify_notification_set_hint_int32 stx.2 "y" y).2 with widget_old_y := y })
      else stx
    sty

/-- The arguments of one `Notify` method call, in the order they are marshalled. -/
structure NotifyCall where
  app_name : String
  icon : String
  replace_id : Nat
  summary : Option String
  body : Option String
  actions : List String
  hints : GHashTable
  timeout : Int

/-- The arguments `notify_notification_show` hands to `dbus_g_proxy_call` for `Notify`. -/
def notify_call_arguments (app_name : String) (priv : NotifyNotificationPrivate) :
    NotifyCall :=
  { app_name := app_name
    icon := match priv.icon_name with
      | some i => i
      | none => ""
    replace_id := priv.id
    summary := priv.summary
    body := priv.message
    actions := priv.actions
    hints := priv.hints
    timeout := priv.timeout }

/-- What `notify_notification_show` leaves behind: its return value, the record, and
the `Notify` call it made, if it made one. -/
structure ShowResult where
  ret : Bool
  priv : NotifyNotificationPrivate
  call : Option NotifyCall

/-- The function `notify_notification_show`.

* `app_name` is what `_notify_get_app_name ()` returns;
* `bus` tells whether `dbus_g_bus_get` hands out the session bus (`false`: it sets an error);
* `server` is the service's answer to the `Notify` call: `some id` is the reply, `none`
  an error, in which case the out-parameter `&priv->id` is not written.

The handler `_close_signal_handler` is connected where the proxy is created. -/
def notify_notification_show (app_name : String) (bus : Bool)
    (server : NotifyCall → Option Nat) (priv : NotifyNotificationPrivate) : ShowResult :=
  let withProxy : Option NotifyNotificationPrivate :=
    match priv.proxy with
    | some _ => some priv
    | none => if bus then some { priv with proxy := some ⟨1⟩ } else none
  match withProxy with
  | none => ⟨false, priv, none⟩
  | some priv =>
    let priv := (_notify_notification_update_applet_hints priv).2
    let call := notify_call_arguments app_name priv
    match server call with
    | none => ⟨false, priv, some call⟩
    | some id => ⟨true, { priv with id := id }, some call⟩

/-- The record as `notify_notification_show` has it when it makes the `Notify` call:
the proxy is in place and the pre-show hook has run. -/
def record_at_notify (priv : NotifyNotificationPrivate) : NotifyNotificationPrivate :=
  { (_notify_notification_update_applet_hints priv).2 with
    proxy := some (priv.proxy.getD ⟨1⟩) }

/-! ## The `NotificationClosed` signal -/

/-- The handler `_close_signal_handler`: the number of times it emits the record's
`closed` signal (each emission runs every connected closed-callback once), and the record. -/
def _close_signal_handler (id : Nat) (priv : NotifyNotificationPrivate) :
    Nat × NotifyNotificationPrivate :=
  if id = priv.id then (1, priv) else (0, priv)

/-- Deliver a sequence of `NotificationClosed` signals to the handler of a record, one
after the other; the emissions are added up. -/
def deliver_closed : List Nat → NotifyNotificationPrivate → Nat × NotifyNotificationPrivate
  | [], priv => (0, priv)
  | id :: rest, priv =>
    let r := _close_signal_handler id priv
    let rs := deliver_closed rest r.2
    (r.1 + rs.1, rs.2)

/-! ## `notify-send`: hints given on the command line -/

/-- Largest `guint64`. -/
def G_MAXUINT64 : Nat := 18446744073709551615

/-- The white space `g_ascii_strtoull` skips. -/
def ISSPACE (c : Char) : Bool :=
  c = ' ' || c = '\x0c' || c = '\n' || c = '\r' || c = '\t' || c = '\x0b'

/-- The test `g_ascii_isdigit`. -/
def g_ascii_isdigit (c : Char) : Bool := '0' ≤ c && c ≤ '9'

/-- The digit loop of `g_ascii_strtoull` for base 10, on the characters that are left:
the state is the number read so far, the overflow flag, and whether a character was
consumed.  A character that is no decimal digit ends the loop. -/
def strtoull_digits : List Char → Nat × Bool × Bool → Nat × Bool × Bool
  | [], st => st
  | c :: cs, (ui64, overflow, consumed) =>
    if g_ascii_isdigit c then
      let d := c.toNat - '0'.toNat
      if ui64 > G_MAXUINT64 / 10 ∨ (ui64 = G_MAXUINT64 / 10 ∧ d > G_MAXUINT64 % 10) then
        strtoull_digits cs (ui64, true, true)
      else
        strtoull_digits cs (ui64 * 10 + d, overflow, true)
    else (ui64, overflow, consumed)

/-- The call `g_ascii_strtoull (nptr, NULL, 10)` of GLib: white space is skipped, one
sign is accepted, decimal digits are read; without a digit the result is `0`, on
overflow it is `G_MAXUINT64`, and after a `-` the result is negated as a `guint64`. -/
def g_ascii_strtoull (nptr : String) : Nat :=
  let s := nptr.toList.dropWhile ISSPACE
  let negative := s.head? = some '-'
  let s := if s.head? = some '-' ∨ s.head? = some '+' then s.tail else s
  let st := strtoull_digits s (0, false, false)
  let result := if st.2.2 = false then 0 else if st.2.1 then G_MAXUINT64 else st.1
  if negative then (G_MAXUINT64 + 1 - result) % (G_MAXUINT64 + 1) else result

/-- The conversion `(gint)` of a `guint64`: the low 32 bits, read as two's complement. -/
def guint64_to_gint (x : Nat) : Int := gint_wrap (x : Int)

/-- The comparison `!strcasecmp (a, b)`: equal when letter case is ignored. -/
def strcasecmp_eq (a b : String) : Bool :=
  a.toList.map Char.toLower = b.toList.map Char.toLower

/-- The first character `*value` of a string; the terminator for the empty string. -/
def first_char (value : String) : Char := value.toList.headD '\x00'

/-- A `GError` of the domain `G_OPTION_ERROR` with the code `G_OPTION_ERROR_BAD_VALUE`. -/
structure GError where
  message : String
deriving DecidableEq, Repr

/-- What `notify_notification_set_hint_variant` leaves behind: its return value, the
record, its static flag `conv_error`, and the error it reports. -/
structure HintVariantResult where
  ret : Bool
  priv : NotifyNotificationPrivate
  conv_error : Bool
  error : Option GError

/-- The function `notify_notification_set_hint_variant` of `notify-send.c`.
`conv_error` is the value of its static variable at the call (`FALSE` at program start);
`g_strtod` is the library's decimal-to-double conversion. -/
def notify_notification_set_hint_variant (g_strtod : String → gdouble) (conv_error : Bool)
    (notification : NotifyNotificationPrivate) (type key value : String) :
    HintVariantResult :=
  let step : Option (Bool × NotifyNotificationPrivate) :=
    if strcasecmp_eq type "string" then
      some (conv_error, (notify_notification_set_hint_string notification key (some value)).2)
    else if strcasecmp_eq type "int" then
      if !g_ascii_isdigit (first_char value) then some (true, notification)
      else
        let h_int := guint64_to_gint (g_ascii_strtoull value)
        some (conv_error, (notify_notification_set_hint_int32 notification key h_int).2)
    else if strcasecmp_eq type "double" then
      if !g_ascii_isdigit (first_char value) then some (true, notification)
      else
        let h_double := g_strtod value
        some (conv_error, (notify_notification_set_hint_double notification key h_double).2)
    else if strcasecmp_eq type "byte" then
      let h_byte := guint64_to_gint (g_ascii_strtoull value)
      if h_byte < 0 ∨ h_byte > 255 then some (true, notification)
      else
        some (conv_error,
          (notify_notification_set_hint_byte notification key (to_guchar h_byte.toNat)).2)
    else none
  match step with
  | none =>
    ⟨false, notification, conv_error,
      some ⟨"Invalid hint type \"" ++ type ++
        "\". Valid types are int, double, string and byte."⟩⟩
  | some (conv_error, priv) =>
    if conv_error then
      ⟨false, priv, conv_error,
        some ⟨"Value \"" ++ value ++ "\" of hint \"" ++ key ++
          "\" could not be parsed as type \"" ++ type ++ "\"."⟩⟩
    else ⟨true, priv, conv_error, none⟩

/-! ## `notify-send`: from the arguments to the record -/

/-- How a stretch of `main` ends: with `exit (status)`, by stopping before `exit` is
reached (a failed assertion, a read outside an array), or by going on with a value. -/
inductive MainOutcome (α : Type) where
  | exit (status : Nat)
  | abort
  | running (a : α)

/-- The test for an octal digit in `g_strcompress`. -/
def is_octal (c : Char) : Bool := '0' ≤ c && c ≤ '7'

/-- The character an escape letter of `g_strcompress` stands for. -/
def escape_char (c : Char) : Char :=
  if c = 'b' then '\x08'
  else if c = 'f' then '\x0c'
  else if c = 'n' then '\n'
  else if c = 'r' then '\r'
  else if c = 't' then '\t'
  else if c = 'v' then '\x0b'
  else c

/-- Where the loop of `g_strcompress` stands: between escapes, right after a backslash,
or inside an octal escape of which `digits` digits with the value `acc` have been read. -/
inductive CompressState where
  | plain
  | escape
  | octal (digits : Nat) (acc : Nat)

/-- The loop of GLib's `g_strcompress` over the characters of the source.  An octal
escape has at most three digits and is stored in a `gchar`, that is modulo 256; a
backslash at the end is dropped. -/
def g_strcompress_chars : CompressState → List Char → List Char
  | .plain, [] => []
  | .escape, [] => []
  | .octal _ acc, [] => [Char.ofNat (acc % 256)]
  | .plain, c :: rest =>
    if c = '\\' then g_strcompress_chars .escape rest
    else c :: g_strcompress_chars .plain rest
  | .escape, c :: rest =>
    if is_octal c then g_strcompress_chars (.octal 1 (c.toNat - '0'.toNat)) rest
    else escape_char c :: g_strcompress_chars .plain rest
  | .octal digits acc, c :: rest =>
    if digits < 3 ∧ is_octal c then
      g_strcompress_chars (.octal (digits + 1) (acc * 8 + (c.toNat - '0'.toNat))) rest
    else if c = '\\' then Char.ofNat (acc % 256) :: g_strcompress_chars .escape rest
    else Char.ofNat (acc % 256) :: c :: g_strcompress_chars .plain rest

/-- The library function `g_strcompress`; the result is a C string and ends at its
first zero byte. -/
def g_strcompress (source : String) : String :=
  String.mk ((g_strcompress_chars .plain source.toList).takeWhile (fun c => c ≠ '\x00'))

/-- The start of `main` in `notify-send.c`, from the result of option parsing to the
call of the constructor.

* `retval` is the result of `g_option_context_parse`, `do_version` the flag `--version`;
* `n_text` is the array of the remaining arguments (`none`: `NULL`), `icons` the value
  of `--icon`;
* `notify_init_ok` is the result of `notify_init ("notify-send")`;
* `new_record` is what the call `notify_notification_new (summary, body, icon_str)`
  returns.  `main` calls a constructor with three arguments, which is not among the
  sources: the constructor of `notifynotification.c` has four parameters. -/
def main_until_new
    (new_record : String → Option String → Option String → NotifyNotificationPrivate)
    (retval do_version : Bool) (n_text : Option (List String))
    (icons : Option String) (notify_init_ok : Bool) :
    MainOutcome NotifyNotificationPrivate :=
  if !retval then .exit 1
  else if do_version then .exit 0
  else
    let summary : Option String :=
      match n_text with
      | some (s :: _) => if s ≠ "" then some s else none
      | _ => none
    match summary, n_text with
    | some summary, some (_ :: positional) =>
      let body : MainOutcome (Option String) :=
        match positional with
        | [] => .running none
        | b :: more => if more ≠ [] then .exit 1 else .running (some (g_strcompress b))
      match body with
      | .exit status => .exit status
      | .abort => .abort
      | .running body =>
        let icon_str := icons.map (fun i => String.mk (i.toList.takeWhile (fun c => c ≠ ',')))
        if !notify_init_ok then .exit 1
        else .running (new_record summary body icon_str)
    | _, _ => .exit 1

/-! ## Timeout, category, urgency -/

/-- Modelled from the spec: the enumeration `NotifyUrgency` of the header `notify.h`,
which is not among the sources; its levels are Low, Normal and Critical. -/
inductive NotifyUrgency where
  | NOTIFY_URGENCY_LOW
  | NOTIFY_URGENCY_NORMAL
  | NOTIFY_URGENCY_CRITICAL
deriving DecidableEq, Repr

/-- Modelled from the spec: the numbers of the levels of `NotifyUrgency`,
Low=0, Normal=1, Critical=2. -/
def NotifyUrgency.value : NotifyUrgency → Nat
  | .NOTIFY_URGENCY_LOW => 0
  | .NOTIFY_URGENCY_NORMAL => 1
  | .NOTIFY_URGENCY_CRITICAL => 2

/-- The function `notify_notification_set_timeout`. -/
def notify_notification_set_timeout (priv : NotifyNotificationPrivate) (timeout : Int) :
    NotifyNotificationPrivate :=
  { priv with timeout := timeout }

/-- The function `notify_notification_set_category`. -/
def notify_notification_set_category (priv : NotifyNotificationPrivate)
    (category : Option String) : Bool × NotifyNotificationPrivate :=
  notify_notification_set_hint_string priv "category" category

/-- The function `notify_notification_set_urgency`; the level is converted with `(guchar)`. -/
def notify_notification_set_urgency (priv : NotifyNotificationPrivate) (l : NotifyUrgency) :
    Bool × NotifyNotificationPrivate :=
  notify_notification_set_hint_byte priv "urgency" (to_guchar l.value)

/-- The operation `hints.set (key, value)` in the words of the specification: the entry
for the key is set to the value, a prior entry is replaced, and the call succeeds. -/
def spec_hints_set (priv : NotifyNotificationPrivate) (key : String) (value : GValue) :
    Bool × NotifyNotificationPrivate :=
  (true, { priv with hints := g_hash_table_insert priv.hints key value })

/-- The level numbers in the words of the specification: Low=0, Normal=1, Critical=2. -/
def spec_urgency_level (l : NotifyUrgency) : Nat :=
  if l = .NOTIFY_URGENCY_LOW then 0
  else if l = .NOTIFY_URGENCY_NORMAL then 1
  else 2

/-! ## User data and actions -/

/-- What `notify_notification_set_user_data` leaves behind: its return value, the record,
and the calls it made through a function pointer, each as the pair of the pointer that
was called and the argument it was given. -/
structure UserDataResult where
  ret : Bool
  priv : NotifyNotificationPrivate
  calls : List (Nat × Nat)

/-- The function `notify_notification_set_user_data`.  The last assignment stores
`priv->user_data`, not the parameter `free_func`, as the free function. -/
def notify_notification_set_user_data (priv : NotifyNotificationPrivate)
    (user_data : Nat) (_free_func : Nat) : UserDataResult :=
  let calls : List (Nat × Nat) :=
    if priv.user_data ≠ 0 then
      if priv.user_data_free_func ≠ 0 then [(priv.user_data_free_func, priv.user_data)]
      else []
    else []
  let priv := { priv with user_data := user_data }
  let priv := { priv with user_data_free_func := priv.user_data }
  ⟨true, priv, calls⟩

/-- The function `notify_notification_add_action`: its body is `return FALSE`. -/
def notify_notification_add_action (priv : NotifyNotificationPrivate)
    (_action _label : Option String) (_callback : Nat) : Bool × NotifyNotificationPrivate :=
  (false, priv)

/-! ## The position of the attached widget -/

/-- The point `_notify_notification_update_applet_hints` computes for a widget: the origin
of its window, moved by the allocation's offset when the widget has no window of its
own, plus half the allocation's width and height. -/
def widget_center (widget : GtkWidget) : Int × Int :=
  let x := widget.origin_x
  let y := widget.origin_y
  let x := if widget.no_window then gint_wrap (x + widget.allocation_x) else x
  let y := if widget.no_window then gint_wrap (y + widget.allocation_y) else y
  let x := gint_wrap (x + Int.tdiv widget.allocation_width 2)
  let y := gint_wrap (y + Int.tdiv widget.allocation_height 2)
  (x, y)

/-! ## `notify-send`: the whole of `main` -/

/-- The loop of GLib's `g_strsplit` for a delimiter of one character: `cur` holds the
characters of the piece being read, in reverse; a delimiter ends the piece as long as
more than one piece is still allowed. -/
def g_strsplit_chars (delimiter : Char) :
    Nat → List Char → List Char → List (List Char)
  | _, cur, [] => [cur.reverse]
  | max_tokens, cur, c :: rest =>
    if c = delimiter ∧ 1 < max_tokens then
      cur.reverse :: g_strsplit_chars delimiter (max_tokens - 1) [] rest
    else g_strsplit_chars delimiter max_tokens (c :: cur) rest

/-- The library function `g_strsplit` for a delimiter of one character and a positive
`max_tokens`: at most `max_tokens` pieces, the last one holding the rest of the string.
Splitting the empty string gives the empty vector. -/
def g_strsplit (string : String) (delimiter : Char) (max_tokens : Nat) : List String :=
  if string = "" then []
  else (g_strsplit_chars delimiter max_tokens [] string.toList).map String.mk

/-- What option parsing leaves in the variables of `main`. -/
structure MainArgs where
  retval : Bool
  do_version : Bool
  n_text : Option (List String)
  icons : Option String
  type : Option String
  urgency : NotifyUrgency
  expire_timeout : Int
  hints : Option (List String)
  wait : Bool
  actions : Option (List String)

/-- What the world answers to `main`: the result of `notify_init`, the record that the
constructor with three arguments returns, the list of `notify_get_server_caps` (`[]` is
`NULL`), the application name, the bus and the server as `notify_notification_show` meets
them, the conversion `g_strtod`, and whether `g_main_loop_run` returns. -/
structure MainEnv where
  notify_init_ok : Bool
  new_record : String → Option String → Option String → NotifyNotificationPrivate
  server_caps : List String
  app_name : String
  bus : Bool
  server : NotifyCall → Option Nat
  g_strtod : String → gdouble
  loop_quits : Bool

/-- The loop over the `--hint` arguments: the flag `hint_error`, the static `conv_error`
of `notify_notification_set_hint_variant`, and the record.  The loop ends at the first
error. -/
def main_hints (g_strtod : String → gdouble) :
    List String → Bool → NotifyNotificationPrivate → Bool × Bool × NotifyNotificationPrivate
  | [], conv_error, notify => (false, conv_error, notify)
  | hint :: rest, conv_error, notify =>
    match g_strsplit hint ':' 3 with
    | [t, k, v] =>
      let r := notify_notification_set_hint_variant g_strtod conv_error notify t k v
      if !r.ret then (true, r.conv_error, r.priv)
      else main_hints g_strtod rest r.conv_error r.priv
    | _ => (true, conv_error, notify)

/-- The address of the callback `_handle_action`, a pointer that is not `NULL`. -/
def handle_action_callback : Nat := 1

/-- The name and the label `main` hands to `notify_notification_add_action` for one
`--action` argument; `i` is the value of the counter after its increment.  When the
split gives no piece, `spl[l-1]` lies before the array and there is no result. -/
def action_registration (i : Nat) (action : String) : Option (Option String × Option String) :=
  let spl := g_strsplit action '=' 2
  let l := spl.length
  if l = 0 then none
  else
    let name := if l = 1 then some (toString i) else spl.head?
    some (name, spl.getLast?)

/-- The loop over the `--action` arguments: the record, and the pairs of name and label
that were handed to `notify_notification_add_action`, in the order of the calls. -/
def main_actions :
    List String → Nat → NotifyNotificationPrivate →
      Option (NotifyNotificationPrivate × List (Option String × Option String))
  | [], _, notify => some (notify, [])
  | action :: rest, i, notify =>
    match action_registration i action with
    | none => none
    | some (name, label) =>
      match main_actions rest (i + 1)
          (notify_notification_add_action notify name label handle_action_callback).2 with
      | none => none
      | some (notify, calls) => some (notify, (name, label) :: calls)

/-- The test of the capability list in `main`: the list is not empty and none of its
entries is `"actions"`, letter case ignored. -/
def server_lacks_actions (caps : List String) : Bool :=
  caps ≠ [] && !(caps.any (fun c => strcasecmp_eq c "actions"))

/-- The state of `main` after the `--hint` arguments: the flag `hint_error` and the record. -/
def main_after_hints (a : MainArgs) (e : MainEnv) :
    MainOutcome (Bool × NotifyNotificationPrivate) :=
  match main_until_new e.new_record a.retval a.do_version a.n_text a.icons
      e.notify_init_ok with
  | .exit status => .exit status
  | .abort => .abort
  | .running notify =>
    let notify := (notify_notification_set_category notify a.type).2
    let notify := (notify_notification_set_urgency notify a.urgency).2
    let notify := notify_notification_set_timeout notify (gint_wrap a.expire_timeout)
    match a.hints with
    | none => .running (false, notify)
    | some hints =>
      let h := main_hints e.g_strtod hints false notify
      .running (h.1, h.2.2)

/-- The state of `main` where it reaches the statement labelled `err_cont`: the flags
`hint_error` and `wait`, whether the statement is reached by the `goto`, and the record. -/
def main_before_show (a : MainArgs) (e : MainEnv) :
    MainOutcome (Bool × Bool × Bool × NotifyNotificationPrivate) :=
  match main_after_hints a e with
  | .exit status => .exit status
  | .abort => .abort
  | .running (hint_error, notify) =>
    let wait := if a.wait ∧ a.expire_timeout = 0 then false else a.wait
    match a.actions with
    | none => .running (hint_error, wait, false, notify)
    | some actions =>
      if hint_error then .running (hint_error, wait, false, notify)
      else if server_lacks_actions e.server_caps then .running (true, false, true, notify)
      else
        match main_actions actions 1 notify with
        | none => .abort
        | some (notify, _) => .running (hint_error, true, false, notify)

/-- The function `main` of `notify-send.c`: the status it hands to `exit`; `abort` when the
program stops before that, `running` when `g_main_loop_run` does not return. -/
def main (a : MainArgs) (e : MainEnv) : MainOutcome Unit :=
  match main_before_show a e with
  | .exit status => .exit status
  | .abort => .abort
  | .running (hint_error, wait, jumped, notify) =>
    let hint_error :=
      if jumped ∨ hint_error = false then
        hint_error || !(notify_notification_show e.app_name e.bus e.server notify).ret
      else hint_error
    if wait ∧ hint_error = false then
      if e.loop_quits then .exit (if hint_error then 1 else 0) else .running ()
    else .exit (if hint_error then 1 else 0)

/-- An argument error in a run, in the words of the claim about the exit code: option
parsing fails, or, when `--version` is not given, the summary is missing or empty, or
more than two positional arguments are given. -/
def argument_error (a : MainArgs) : Bool :=
  !a.retval ||
    (!a.do_version &&
      match a.n_text with
      | none => true
      | some [] => true
      | some (s :: rest) => s = "" || 2 ≤ rest.length)

/-- The run gets past `notify_init`: the `--hint` arguments are looked at. -/
def reaches_hints (a : MainArgs) (e : MainEnv) : Bool :=
  !argument_error a && !a.do_version && e.notify_init_ok

/-- The number a text of decimal digits denotes. -/
def decimal_value (cs : List Char) : Nat :=
  cs.foldl (fun acc c => acc * 10 + (c.toNat - '0'.toNat)) 0

/-- The text is a plain decimal numeral: one or more decimal digits and nothing else. -/
def is_decimal (v : String) : Bool :=
  v.toList ≠ [] && v.toList.all g_ascii_isdigit

/-- The value of a hint cannot be parsed as its type, in the words of the help text and
of the error message: the type is none of string, int, double and byte (letter case
ignored); or it is int or double and the value does not start with a decimal digit; or
it is byte and the value is not a decimal numeral from 0 to 255. -/
def hint_value_malformed (type value : String) : Bool :=
  if strcasecmp_eq type "string" then false
  else if strcasecmp_eq type "int" || strcasecmp_eq type "double" then
    !g_ascii_isdigit (first_char value)
  else if strcasecmp_eq type "byte" then
    !(is_decimal value && decimal_value value.toList ≤ 255)
  else true

/-- A `--hint` argument is malformed: it does not have the three parts `TYPE:NAME:VALUE`,
or its value cannot be parsed as its type. -/
def hint_malformed (hint : String) : Bool :=
  match g_strsplit hint ':' 3 with
  | [type, _, value] => hint_value_malformed type value
  | _ => true

/-- Every `--hint` argument of type byte carries a plain decimal numeral below `2^32`. -/
def byte_hints_plain (hints : List String) : Bool :=
  hints.all (fun hint =>
    match g_strsplit hint ':' 3 with
    | [type, _, value] =>
      !strcasecmp_eq type "byte" ||
        (is_decimal value && decimal_value value.toList < 4294967296)
    | _ => true)

/-- The capability list is not empty and none of its entries reads `actions` when letter
case is ignored. -/
def caps_lack_actions (caps : List String) : Bool :=
  !caps.isEmpty &&
    caps.all (fun c => c.toList.map Char.toLower != ['a', 'c', 't', 'i', 'o', 'n', 's'])

/-- A hint-parsing error in a run: the `--hint` arguments are looked at and one of them
is malformed. -/
def hint_parsing_error (a : MainArgs) (e : MainEnv) : Bool :=
  reaches_hints a e && (a.hints.getD []).any hint_malformed

/-- A capability mismatch in a run: the hints were accepted, actions are requested, and
the capability list of the server is not empty and lacks `"actions"`. -/
def capability_mismatch (a : MainArgs) (e : MainEnv) : Bool :=
  reaches_hints a e && !(a.hints.getD []).any hint_malformed && a.actions.isSome &&
    caps_lack_actions e.server_caps

/-- A 48 by 48 RGBA icon with 8 bits per sample and rows of 192 bytes, all bytes zero. -/
def sample_icon : GdkPixbuf :=
  { width := 48, height := 48, rowstride := 192, n_channels := 4, bits_per_sample := 8,
    has_alpha := true, pixels := fun _ => 0 }

/-- Two rows of two RGBA pixels with 8 bits per sample in rows of 8 bytes; the pixel
memory holds the byte `i` at offset `i`. -/
def sample_icon_small : GdkPixbuf :=
  { width := 2, height := 2, rowstride := 8, n_channels := 4, bits_per_sample := 8,
    has_alpha := true, pixels := fun i => i }

/-- Three rows of one RGBA pixel with 8 bits per sample in rows of `2^30` bytes: the
`gint` product `(height-1)*rowstride` wraps around. -/
def sample_icon_tall : GdkPixbuf :=
  { width := 1, height := 3, rowstride := 1073741824, n_channels := 4, bits_per_sample := 8,
    has_alpha := true, pixels := fun _ => 0 }

/-- The record `notify_notification_new ("Hello", "", NULL, NULL)` builds. -/
def sample_record : NotifyNotificationPrivate :=
  { notify_notification_init with summary := some "Hello", message := some "" }

/-- A server that answers every `Notify` call with the id 7. -/
def sample_server : NotifyCall → Option Nat := fun _ => some 7

/-- The sample record after it was shown to the sample server. -/
def sample_shown : NotifyNotificationPrivate :=
  (notify_notification_show "notify-send" true sample_server sample_record).priv

/-- The `gdouble` 1.0. -/
def gdouble_one : gdouble := ⟨0x3FF0000000000000⟩

/-- The `gdouble` nearest to 0.1. -/
def gdouble_tenth : gdouble := ⟨0x3FB999999999999A⟩

/-- The `gdouble` that equals the `gfloat` nearest to 0.1. -/
def gdouble_tenth_single : gdouble := ⟨0x3FB99999A0000000⟩

/-- A widget without a window of its own whose center is the point (5, 0). -/
def sample_widget : GtkWidget :=
  { origin_x := 1, origin_y := 0, no_window := true, allocation_x := 2, allocation_y := 0,
    allocation_width := 4, allocation_height := 0 }

/-- The record `notify_notification_new ("Hello", "", NULL, widget)` builds for the
sample widget. -/
def sample_attached : NotifyNotificationPrivate :=
  { notify_notification_init with
    summary := some "Hello", message := some "", attached_widget := some sample_widget }

/-- The run `notify-send Hello body`. -/
def sample_args : MainArgs :=
  { retval := true, do_version := false, n_text := some ["Hello", "body"], icons := none,
    type := none, urgency := .NOTIFY_URGENCY_NORMAL, expire_timeout := -1, hints := none,
    wait := false, actions := none }

/-- A constructor with three arguments that stores what it is given in a record fresh
from `notify_notification_init`. -/
def sample_new_record (summary : String) (body icon : Option String) :
    NotifyNotificationPrivate :=
  { notify_notification_init with summary := some summary, message := body, icon_name := icon }

/-- A world in which everything works: `notify_init` succeeds, the server names no
capabilities and answers every `Notify` call with the id 7. -/
def sample_env : MainEnv :=
  { notify_init_ok := true, new_record := sample_new_record, server_caps := [],
    app_name := "notify-send", bus := true,
    server := sample_server, g_strtod := fun _ => gdouble_one, loop_quits := true }

/-! ## Auxiliary facts: machine integers -/

theorem gint_wrap_of_range (x : Int) (h0 : -2147483648 ≤ x) (h1 : x ≤ 2147483647) :
    gint_wrap x = x := by
  unfold gint_wrap
  omega

theorem gint_to_gsize_cast (x : Int) :
    (gint_to_gsize x : Int) = x % 18446744073709551616 := by
  unfold gint_to_gsize
  omega

theorem ceil_div_eight (n : Int) : Int.ceil ((n : ℚ) / 8) = (n + 7) / 8 := by
  rw [Int.ceil_eq_iff]
  have h1 : 8 * ((n + 7) / 8) ≤ n + 7 := by omega
  have h2 : n ≤ 8 * ((n + 7) / 8) := by omega
  have h1q : (8 : ℚ) * (((n + 7) / 8 : Int) : ℚ) ≤ (n : ℚ) + 7 := by exact_mod_cast h1
  have h2q : (n : ℚ) ≤ 8 * (((n + 7) / 8 : Int) : ℚ) := by exact_mod_cast h2
  constructor
  · linarith
  · linarith

/-! ## Auxiliary facts: the hint table -/

theorem find_filter_ne (l : List (String × GValue)) (k k2 : String) (h : k2 ≠ k) :
    (l.filter (fun e => e.1 != k)).find? (fun e => e.1 == k2) =
      l.find? (fun e => e.1 == k2) := by
  induction l with
  | nil => rfl
  | cons e l ih =>
    obtain ⟨a, b⟩ := e
    by_cases hk : a = k
    · subst hk
      have hk2 : ¬ a = k2 := fun h2 => h h2.symm
      simp [List.filter_cons, List.find?_cons, hk2, ih]
    · by_cases hk2 : a = k2
      · simp [List.filter_cons, List.find?_cons, hk, hk2, h]
      · simp [List.filter_cons, List.find?_cons, hk, hk2, ih]

theorem count_filter_ne (l : List (String × GValue)) (k k2 : String) (h : k2 ≠ k) :
    (l.filter (fun e => e.1 != k)).countP (fun e => e.1 == k2) =
      l.countP (fun e => e.1 == k2) := by
  induction l with
  | nil => rfl
  | cons e l ih =>
    obtain ⟨a, b⟩ := e
    by_cases hk : a = k
    · subst hk
      have hk2 : ¬ a = k2 := fun h2 => h h2.symm
      simp [List.filter_cons, List.countP_cons, hk2, ih]
    · simp [List.filter_cons, List.countP_cons, hk, ih]

theorem g_hash_table_lookup_insert_self (t : GHashTable) (k : String) (v : GValue) :
    g_hash_table_lookup (g_hash_table_insert t k v) k = some v := by
  simp [g_hash_table_lookup, g_hash_table_insert]

theorem g_hash_table_lookup_insert_other (t : GHashTable) (k k2 : String) (v : GValue)
    (h : k2 ≠ k) :
    g_hash_table_lookup (g_hash_table_insert t k v) k2 = g_hash_table_lookup t k2 := by
  have hkk : ¬ k = k2 := fun h2 => h h2.symm
  simp [g_hash_table_lookup, g_hash_table_insert, List.find?_cons, hkk, find_filter_ne _ _ _ h]

theorem g_hash_table_count_insert_self (t : GHashTable) (k : String) (v : GValue) :
    g_hash_table_count (g_hash_table_insert t k v) k = 1 := by
  have h0 : (t.entries.filter (fun e => e.1 != k)).countP (fun e => e.1 == k) = 0 := by
    rw [List.countP_eq_zero]
    intro e he
    have := (List.mem_filter.1 he).2
    simpa using this
  simp [g_hash_table_count, g_hash_table_insert, List.countP_cons, h0]

theorem g_hash_table_count_insert_other (t : GHashTable) (k k2 : String) (v : GValue)
    (h : k2 ≠ k) :
    g_hash_table_count (g_hash_table_insert t k v) k2 = g_hash_table_count t k2 := by
  have hkk : ¬ k = k2 := fun h2 => h h2.symm
  simp [g_hash_table_count, g_hash_table_insert, List.countP_cons, hkk, count_filter_ne _ _ _ h]

/-! ## Icon data -/

theorem gint_wrap_emod (x : Int) : gint_wrap x % 4294967296 = x % 4294967296 := by
  unfold gint_wrap
  omega

theorem gint_wrap_congr (x y : Int) (h : x % 4294967296 = y % 4294967296) :
    gint_wrap x = gint_wrap y := by
  unfold gint_wrap
  omega

theorem to_guint_gint_to_gsize (z : Int) :
    to_guint (gint_to_gsize z) = (z % 4294967296).toNat := by
  unfold to_guint gint_to_gsize
  omega

/-- The number of bytes that reach the byte array: the `gsize` `image_len` taken as a
`guint` is the exact value of the length expression modulo `2^32`, because every
intermediate wrap-around is a multiple of `2^32`; only the dividend of the division by 8
stays wrapped. -/
theorem stored_image_len (icon : GdkPixbuf) :
    to_guint (pixbuf_image_len icon) =
      (((icon.height - 1) * icon.rowstride +
        icon.width *
          Int.tdiv (gint_wrap (icon.n_channels * icon.bits_per_sample + 7)) 8) %
        4294967296).toNat := by
  have hin : gint_wrap (gint_wrap (icon.n_channels * icon.bits_per_sample) + 7) =
      gint_wrap (icon.n_channels * icon.bits_per_sample + 7) := by
    apply gint_wrap_congr
    have := gint_wrap_emod (icon.n_channels * icon.bits_per_sample)
    omega
  have hA : gint_wrap (gint_wrap (icon.height - 1) * icon.rowstride) % 4294967296 =
      ((icon.height - 1) * icon.rowstride) % 4294967296 := by
    rw [gint_wrap_emod, Int.mul_emod, gint_wrap_emod, ← Int.mul_emod]
  have hB : gint_wrap (icon.width *
      Int.tdiv (gint_wrap (icon.n_channels * icon.bits_per_sample + 7)) 8) % 4294967296 =
      (icon.width *
        Int.tdiv (gint_wrap (icon.n_channels * icon.bits_per_sample + 7)) 8) %
          4294967296 := gint_wrap_emod _
  unfold pixbuf_image_len
  rw [to_guint_gint_to_gsize, gint_wrap_emod, hin, Int.add_emod, hA, hB, ← Int.add_emod]

theorem set_icon_data_eq (priv : NotifyNotificationPrivate) (icon : GdkPixbuf) :
    notify_notification_set_icon_data_from_pixbuf priv icon =
      (true, { priv with
        hints := (g_hash_table_insert priv.hints "icon_data"
          (GValue.value_array
            [GValue.int icon.width, GValue.int icon.height, GValue.int icon.rowstride,
              GValue.boolean icon.has_alpha, GValue.int icon.bits_per_sample,
              GValue.int icon.n_channels,
              GValue.uchar_array
                ((List.range (to_guint (pixbuf_image_len icon))).map icon.pixels)])) }) := by
  simp [notify_notification_set_icon_data_from_pixbuf, g_value_array_new, g_new0_GValue,
    g_strdup, _gvalue_array_append_int, _gvalue_array_append_bool,
    _gvalue_array_append_byte_array, g_array_sized_new, g_array_append_vals]

theorem pixbuf_image_len_eq (icon : GdkPixbuf)
    (hw : 1 ≤ icon.width) (hh : 1 ≤ icon.height) (hhmax : icon.height ≤ G_MAXINT)
    (hr : 0 ≤ icon.rowstride) (hc : 1 ≤ icon.n_channels) (hb : 1 ≤ icon.bits_per_sample)
    (o1 : icon.n_channels * icon.bits_per_sample + 7 ≤ G_MAXINT)
    (o2 : (icon.height - 1) * icon.rowstride +
      icon.width * ((icon.n_channels * icon.bits_per_sample + 7) / 8) ≤ G_MAXINT) :
    (pixbuf_image_len icon : Int) =
      spec_image_len icon.width icon.height icon.rowstride icon.n_channels
        icon.bits_per_sample := by
  unfold G_MAXINT at *
  have hcb : 1 ≤ icon.n_channels * icon.bits_per_sample := by nlinarith
  have hq : 1 ≤ (icon.n_channels * icon.bits_per_sample + 7) / 8 := by omega
  have hA : 0 ≤ (icon.height - 1) * icon.rowstride := by
    apply mul_nonneg <;> omega
  have hB : 0 ≤ icon.width * ((icon.n_channels * icon.bits_per_sample + 7) / 8) := by
    apply mul_nonneg <;> omega
  have w1 : gint_wrap (icon.height - 1) = icon.height - 1 :=
    gint_wrap_of_range _ (by omega) (by omega)
  have w2 : gint_wrap ((icon.height - 1) * icon.rowstride) = (icon.height - 1) * icon.rowstride :=
    gint_wrap_of_range _ (by omega) (by omega)
  have w3 : gint_wrap (icon.n_channels * icon.bits_per_sample) =
      icon.n_channels * icon.bits_per_sample := gint_wrap_of_range _ (by omega) (by omega)
  have w4 : gint_wrap (icon.n_channels * icon.bits_per_sample + 7) =
      icon.n_channels * icon.bits_per_sample + 7 := gint_wrap_of_range _ (by omega) (by omega)
  have w5 : Int.tdiv (icon.n_channels * icon.bits_per_sample + 7) 8 =
      (icon.n_channels * icon.bits_per_sample + 7) / 8 :=
    Int.tdiv_eq_ediv (by omega) (by norm_num)
  have w6 : gint_wrap (icon.width * ((icon.n_channels * icon.bits_per_sample + 7) / 8)) =
      icon.width * ((icon.n_channels * icon.bits_per_sample + 7) / 8) :=
    gint_wrap_of_range _ (by omega) (by omega)
  have w7 : gint_wrap ((icon.height - 1) * icon.rowstride +
      icon.width * ((icon.n_channels * icon.bits_per_sample + 7) / 8)) =
      (icon.height - 1) * icon.rowstride +
      icon.width * ((icon.n_channels * icon.bits_per_sample + 7) / 8) :=
    gint_wrap_of_range _ (by omega) (by omega)
  have hc8 := ceil_div_eight (icon.n_channels * icon.bits_per_sample)
  unfold pixbuf_image_len spec_image_len
  rw [w1, w2, w3, w4, w5, w6, w7, gint_to_gsize_cast]
  push_cast at hc8
  rw [hc8]
  omega

/-- C1: for an icon with `width ≥ 1`, `height ≥ 1`, `rowstride ≥ 0`, `n_channels ≥ 1` and
`bits_per_sample ≥ 1` whose intermediate results stay within `gint`, the length that
`notify_notification_set_icon_data_from_pixbuf` computes is
`(height-1)*rowstride + width*ceil(channels*bits_per_sample/8)`, and the byte array that
is the last element of the struct stored under `"icon_data"` has that many bytes. -/
theorem set_icon_data_image_len (priv : NotifyNotificationPrivate) (icon : GdkPixbuf)
    (hw : 1 ≤ icon.width) (hh : 1 ≤ icon.height) (hhmax : icon.height ≤ G_MAXINT)
    (hr : 0 ≤ icon.rowstride) (hc : 1 ≤ icon.n_channels) (hb : 1 ≤ icon.bits_per_sample)
    (o1 : icon.n_channels * icon.bits_per_sample + 7 ≤ G_MAXINT)
    (o2 : (icon.height - 1) * icon.rowstride +
      icon.width * ((icon.n_channels * icon.bits_per_sample + 7) / 8) ≤ G_MAXINT) :
    (pixbuf_image_len icon : Int) =
        spec_image_len icon.width icon.height icon.rowstride icon.n_channels
          icon.bits_per_sample ∧
      ∃ bytes : List Nat,
        g_hash_table_lookup (notify_notification_set_icon_data_from_pixbuf priv icon).2.hints
            "icon_data" =
          some (GValue.value_array
            [GValue.int icon.width, GValue.int icon.height, GValue.int icon.rowstride,
              GValue.boolean icon.has_alpha, GValue.int icon.bits_per_sample,
              GValue.int icon.n_channels, GValue.uchar_array bytes]) ∧
        (bytes.length : Int) =
          spec_image_len icon.width icon.height icon.rowstride icon.n_channels
            icon.bits_per_sample := by
  have hlen := pixbuf_image_len_eq icon hw hh hhmax hr hc hb o1 o2
  have hsmall : to_guint (pixbuf_image_len icon) = pixbuf_image_len icon := by
    have hA : 0 ≤ (icon.height - 1) * icon.rowstride := by
      apply mul_nonneg <;> omega
    have hcb : 1 ≤ icon.n_channels * icon.bits_per_sample := by nlinarith
    have hB : 0 ≤ icon.width * ((icon.n_channels * icon.bits_per_sample + 7) / 8) := by
      apply mul_nonneg <;> omega
    have hc8 := ceil_div_eight (icon.n_channels * icon.bits_per_sample)
    push_cast at hc8
    unfold spec_image_len at hlen
    rw [hc8] at hlen
    unfold G_MAXINT at o2
    unfold to_guint
    omega
  refine ⟨hlen, (List.range (to_guint (pixbuf_image_len icon))).map icon.pixels, ?_, ?_⟩
  · rw [set_icon_data_eq]
    exact g_hash_table_lookup_insert_self _ _ _
  · rw [← hlen, hsmall]
    simp

/-- The sample icon satisfies the conditions of `set_icon_data_image_len`; its pixel
array has `47 * 192 + 48 * 4 = 9216` bytes. -/
theorem set_icon_data_image_len_witness :
    (1 ≤ sample_icon.width ∧ 1 ≤ sample_icon.height ∧ sample_icon.height ≤ G_MAXINT ∧
      0 ≤ sample_icon.rowstride ∧ 1 ≤ sample_icon.n_channels ∧
      1 ≤ sample_icon.bits_per_sample) ∧
    spec_image_len sample_icon.width sample_icon.height sample_icon.rowstride
      sample_icon.n_channels sample_icon.bits_per_sample = 9216 ∧
    ((pixbuf_image_len sample_icon : Int) =
        spec_image_len sample_icon.width sample_icon.height sample_icon.rowstride
          sample_icon.n_channels sample_icon.bits_per_sample ∧
      ∃ bytes : List Nat,
        g_hash_table_lookup
            (notify_notification_set_icon_data_from_pixbuf sample_record sample_icon).2.hints
            "icon_data" =
          some (GValue.value_array
            [GValue.int sample_icon.width, GValue.int sample_icon.height,
              GValue.int sample_icon.rowstride, GValue.boolean sample_icon.has_alpha,
              GValue.int sample_icon.bits_per_sample, GValue.int sample_icon.n_channels,
              GValue.uchar_array bytes]) ∧
        (bytes.length : Int) =
          spec_image_len sample_icon.width sample_icon.height sample_icon.rowstride
            sample_icon.n_channels sample_icon.bits_per_sample) :=
  ⟨by decide, by norm_num [spec_image_len, sample_icon],
    set_icon_data_image_len sample_record sample_icon (by decide) (by decide) (by decide)
      (by decide) (by decide) (by decide) (by decide) (by decide)⟩

/-- C2: for every icon `notify_notification_set_icon_data_from_pixbuf` returns `TRUE` and
leaves, under the key `"icon_data"`, exactly one entry: a struct of the seven elements
width, height, rowstride (`Int32`), has_alpha (`Bool`), bits_per_sample, n_channels
(`Int32`) and the pixel bytes (`ByteArray`), in this order.  The pixel bytes are the
first bytes of the icon's pixel memory, as many as
`(height-1)*rowstride + width*((n_channels*bits_per_sample+7)/8)` says modulo `2^32`;
for an icon whose `n_channels*bits_per_sample` is not negative and whose length
`(height-1)*rowstride + width*ceil(n_channels*bits_per_sample/8)` fits a `guint`, they are
exactly that many.  Every other key keeps its value, and the other fields of the record
are untouched. -/
theorem set_icon_data_struct (priv : NotifyNotificationPrivate) (icon : GdkPixbuf) :
    (notify_notification_set_icon_data_from_pixbuf priv icon).1 = true ∧
    (∃ elements : List GValue,
      g_hash_table_lookup (notify_notification_set_icon_data_from_pixbuf priv icon).2.hints
        "icon_data" = some (GValue.value_array elements) ∧
      elements =
        [GValue.int icon.width, GValue.int icon.height, GValue.int icon.rowstride,
          GValue.boolean icon.has_alpha, GValue.int icon.bits_per_sample,
          GValue.int icon.n_channels,
          GValue.uchar_array
            ((List.range
              (((icon.height - 1) * icon.rowstride +
                icon.width *
                  Int.tdiv (gint_wrap (icon.n_channels * icon.bits_per_sample + 7)) 8) %
                4294967296).toNat).map icon.pixels)] ∧
      elements.length = 7 ∧
      elements.map GValue.type =
        [HintType.Int32, HintType.Int32, HintType.Int32, HintType.Bool, HintType.Int32,
          HintType.Int32, HintType.ByteArray]) ∧
    (0 ≤ icon.n_channels * icon.bits_per_sample →
      icon.n_channels * icon.bits_per_sample + 7 ≤ G_MAXINT →
      0 ≤ spec_image_len icon.width icon.height icon.rowstride icon.n_channels
        icon.bits_per_sample →
      spec_image_len icon.width icon.height icon.rowstride icon.n_channels
        icon.bits_per_sample < 4294967296 →
      g_hash_table_lookup (notify_notification_set_icon_data_from_pixbuf priv icon).2.hints
        "icon_data" =
        some (GValue.value_array
          [GValue.int icon.width, GValue.int icon.height, GValue.int icon.rowstride,
            GValue.boolean icon.has_alpha, GValue.int icon.bits_per_sample,
            GValue.int icon.n_channels,
            GValue.uchar_array
              ((List.range
                (spec_image_len icon.width icon.height icon.rowstride icon.n_channels
                  icon.bits_per_sample).toNat).map icon.pixels)])) ∧
    g_hash_table_count (notify_notification_set_icon_data_from_pixbuf priv icon).2.hints
      "icon_data" = 1 ∧
    (∀ k : String, k ≠ "icon_data" →
      g_hash_table_lookup (notify_notification_set_icon_data_from_pixbuf priv icon).2.hints k =
        g_hash_table_lookup priv.hints k ∧
      g_hash_table_count (notify_notification_set_icon_data_from_pixbuf priv icon).2.hints k =
        g_hash_table_count priv.hints k) ∧
    (notify_notification_set_icon_data_from_pixbuf priv icon).2 =
      { priv with hints := (notify_notification_set_icon_data_from_pixbuf priv icon).2.hints } := by
  rw [set_icon_data_eq, stored_image_len]
  refine ⟨rfl, ⟨_, g_hash_table_lookup_insert_self _ _ _, rfl, rfl, rfl⟩, ?_,
    g_hash_table_count_insert_self _ _ _, ?_, rfl⟩
  · intro h0 h1 h2 h3
    unfold G_MAXINT at h1
    have hw : gint_wrap (icon.n_channels * icon.bits_per_sample + 7) =
        icon.n_channels * icon.bits_per_sample + 7 :=
      gint_wrap_of_range _ (by omega) (by omega)
    have hd : Int.tdiv (icon.n_channels * icon.bits_per_sample + 7) 8 =
        (icon.n_channels * icon.bits_per_sample + 7) / 8 :=
      Int.tdiv_eq_ediv (by omega) (by norm_num)
    have hc8 := ceil_div_eight (icon.n_channels * icon.bits_per_sample)
    push_cast at hc8
    have hs : (icon.height - 1) * icon.rowstride +
        icon.width * ((icon.n_channels * icon.bits_per_sample + 7) / 8) =
        spec_image_len icon.width icon.height icon.rowstride icon.n_channels
          icon.bits_per_sample := by
      unfold spec_image_len
      rw [hc8]
    rw [g_hash_table_lookup_insert_self, hw, hd, hs, Int.emod_eq_of_lt h2 h3]
  · intro k hk
    exact ⟨g_hash_table_lookup_insert_other _ _ _ _ hk,
      g_hash_table_count_insert_other _ _ _ _ hk⟩

/-- The small sample icon, two rows of two RGBA pixels in rows of 8 bytes, whose memory
holds the byte `i` at offset `i`: the struct stored under `"icon_data"` is
`(2, 2, 8, TRUE, 8, 4, [0, 1, ..., 15])`, with `(2-1)*8 + 2*4 = 16` pixel bytes. -/
theorem set_icon_data_struct_witness :
    g_hash_table_lookup
      (notify_notification_set_icon_data_from_pixbuf sample_record sample_icon_small).2.hints
      "icon_data" =
      some (GValue.value_array
        [GValue.int 2, GValue.int 2, GValue.int 8, GValue.boolean true, GValue.int 8,
          GValue.int 4,
          GValue.uchar_array [0, 1, 2, 3, 4, 5, 6, 7, 8, 9, 10, 11, 12, 13, 14, 15]]) := by
  have hs : spec_image_len sample_icon_small.width sample_icon_small.height
      sample_icon_small.rowstride sample_icon_small.n_channels
      sample_icon_small.bits_per_sample = 16 := by
    norm_num [spec_image_len, sample_icon_small]
  have h := (set_icon_data_struct sample_record sample_icon_small).2.2.1 (by decide)
    (by decide) (by rw [hs]; decide) (by rw [hs]; decide)
  rw [h, hs]
  rfl

/-- The tall sample icon: the `gint` length expression wraps to `-2147483644`, which as a
`gsize` is `18446744071562067972`; the byte array takes its length as a `guint`, so
`2147483652` bytes are asked for. -/
theorem set_icon_data_tall_len :
    pixbuf_image_len sample_icon_tall = 18446744071562067972 ∧
    to_guint (pixbuf_image_len sample_icon_tall) = 2147483652 := by
  constructor <;> decide

/-! ## Setting a hint twice -/

/-- Narrowing a NaN keeps the sign and the upper bits of the payload and sets the quiet
bit: the quiet NaNs `0x7FF8000000000000` and `0xFFF8000000000000` become `0x7FC00000` and
`0xFFC00000`, the signalling NaN `0x7FF0000020000000` becomes `0x7FC00001`. -/
theorem gdouble_to_gfloat_nan :
    gdouble_to_gfloat ⟨0x7FF8000000000000⟩ = ⟨0x7FC00000⟩ ∧
    gdouble_to_gfloat ⟨0xFFF8000000000000⟩ = ⟨0xFFC00000⟩ ∧
    gdouble_to_gfloat ⟨0x7FF0000020000000⟩ = ⟨0x7FC00001⟩ := by
  decide

/-- The value a setter call stores. -/
theorem HintSetter.run_eq (s : HintSetter) (priv : NotifyNotificationPrivate) (key : String) :
    ∃ v : GValue, s.run priv key =
      (true, { priv with hints := g_hash_table_insert priv.hints key v }) ∧
      (∀ x, s = .int32 x → v = GValue.int x) ∧
      (∀ x, s = .double x → v = GValue.float (gdouble_to_gfloat x)) ∧
      (∀ x, s = .byte x → v = GValue.uchar x) ∧
      (∀ x len, s = .byte_array x len →
        v = GValue.uchar_array ((List.range (to_guint len)).map x)) ∧
      (∀ x, s = .string x → v = GValue.string x) := by
  cases s with
  | int32 x =>
    exact ⟨GValue.int x, rfl, by simp⟩
  | double x =>
    exact ⟨GValue.float (gdouble_to_gfloat x), rfl, by simp⟩
  | byte x =>
    exact ⟨GValue.uchar x, rfl, by simp⟩
  | byte_array x len =>
    refine ⟨GValue.uchar_array ((List.range (to_guint len)).map x), ?_, by simp⟩
    simp [HintSetter.run, notify_notification_set_hint_byte_array, g_array_append_vals]
  | string x =>
    exact ⟨GValue.string x, rfl, by simp⟩

/-- Setting a hint and setting it again through any two of the five setters leaves one
entry under the key, holding what the second call stored, and no other key is touched;
the second call stores its argument as it is for the int32, byte and string setters,
the first `len` bytes (`len` taken as a `guint`) for the byte-array setter, and narrowed
to a `gfloat` for the double setter. -/
theorem set_hint_twice (priv : NotifyNotificationPrivate) (k : String) (s1 s2 : HintSetter) :
    (s2.run (s1.run priv k).2 k).1 = true ∧
    g_hash_table_count (s2.run (s1.run priv k).2 k).2.hints k = 1 ∧
    (∀ x, s2 = .int32 x →
      g_hash_table_lookup (s2.run (s1.run priv k).2 k).2.hints k = some (GValue.int x)) ∧
    (∀ x, s2 = .byte x →
      g_hash_table_lookup (s2.run (s1.run priv k).2 k).2.hints k = some (GValue.uchar x)) ∧
    (∀ x len, s2 = .byte_array x len →
      g_hash_table_lookup (s2.run (s1.run priv k).2 k).2.hints k =
        some (GValue.uchar_array ((List.range (to_guint len)).map x))) ∧
    (∀ x, s2 = .string x →
      g_hash_table_lookup (s2.run (s1.run priv k).2 k).2.hints k = some (GValue.string x)) ∧
    (∀ x, s2 = .double x →
      g_hash_table_lookup (s2.run (s1.run priv k).2 k).2.hints k =
        some (GValue.float (gdouble_to_gfloat x))) ∧
    (∀ k2 : String, k2 ≠ k →
      g_hash_table_lookup (s2.run (s1.run priv k).2 k).2.hints k2 =
        g_hash_table_lookup priv.hints k2 ∧
      g_hash_table_count (s2.run (s1.run priv k).2 k).2.hints k2 =
        g_hash_table_count priv.hints k2) := by
  obtain ⟨v1, h1, -⟩ := HintSetter.run_eq s1 priv k
  obtain ⟨v2, h2, hi, hd, hb, ha, hs⟩ := HintSetter.run_eq s2 (s1.run priv k).2 k
  rw [h2, h1]
  simp only [g_hash_table_lookup_insert_self, g_hash_table_count_insert_self]
  refine ⟨trivial, trivial, ?_, ?_, ?_, ?_, ?_, ?_⟩
  · intro x hx; rw [hi x hx]
  · intro x hx; rw [hb x hx]
  · intro x len hx; rw [ha x len hx]
  · intro x hx; rw [hs x hx]
  · intro x hx; rw [hd x hx]
  · intro k2 hk2
    simp only [g_hash_table_lookup_insert_other _ _ _ _ hk2,
      g_hash_table_count_insert_other _ _ _ _ hk2, and_self]

/-- C3, at the double setter: setting `"k"` to 1.0 and then to 0.1 leaves one entry under
`"k"`, a `G_TYPE_FLOAT` value holding the single precision number nearest to 0.1 (bits
`0x3DCCCCCD`).  Setting it to the different double `0x3FB99999A0000000` leaves the very
same entry: what is stored is not the double that was given. -/
theorem set_hint_double_twice_stores_gfloat :
    g_hash_table_count
      (notify_notification_set_hint_double
        (notify_notification_set_hint_double sample_record "k" gdouble_one).2 "k"
        gdouble_tenth).2.hints "k" = 1 ∧
    g_hash_table_lookup
      (notify_notification_set_hint_double
        (notify_notification_set_hint_double sample_record "k" gdouble_one).2 "k"
        gdouble_tenth).2.hints "k" = some (GValue.float ⟨0x3DCCCCCD⟩) ∧
    g_hash_table_lookup
      (notify_notification_set_hint_double
        (notify_notification_set_hint_double sample_record "k" gdouble_one).2 "k"
        gdouble_tenth_single).2.hints "k" = some (GValue.float ⟨0x3DCCCCCD⟩) ∧
    gdouble_tenth ≠ gdouble_tenth_single := by
  have e1 : gdouble_to_gfloat gdouble_tenth = ⟨0x3DCCCCCD⟩ := by decide
  have e2 : gdouble_to_gfloat gdouble_tenth_single = ⟨0x3DCCCCCD⟩ := by decide
  refine ⟨?_, ?_, ?_, by decide⟩
  · exact g_hash_table_count_insert_self _ _ _
  · simp only [notify_notification_set_hint_double, g_hash_table_lookup_insert_self, e1]
  · simp only [notify_notification_set_hint_double, g_hash_table_lookup_insert_self, e2]

/-! ## Byte hints on the command line -/

/-- The call for a hint of type `byte`, with the comparisons of the type name carried out. -/
theorem set_hint_variant_byte_eq (g_strtod : String → gdouble) (conv_error : Bool)
    (n : NotifyNotificationPrivate) (key value : String) :
    notify_notification_set_hint_variant g_strtod conv_error n "byte" key value =
      if guint64_to_gint (g_ascii_strtoull value) < 0 ∨
          guint64_to_gint (g_ascii_strtoull value) > 255 then
        ⟨false, n, true,
          some ⟨"Value \"" ++ value ++ "\" of hint \"" ++ key ++
            "\" could not be parsed as type \"" ++ "byte" ++ "\"."⟩⟩
      else if conv_error then
        ⟨false, (notify_notification_set_hint_byte n key
            (to_guchar (guint64_to_gint (g_ascii_strtoull value)).toNat)).2, conv_error,
          some ⟨"Value \"" ++ value ++ "\" of hint \"" ++ key ++
            "\" could not be parsed as type \"" ++ "byte" ++ "\"."⟩⟩
      else
        ⟨true, (notify_notification_set_hint_byte n key
            (to_guchar (guint64_to_gint (g_ascii_strtoull value)).toNat)).2, conv_error,
          none⟩ := by
  have ht1 : strcasecmp_eq "byte" "string" = false := by decide
  have ht2 : strcasecmp_eq "byte" "int" = false := by decide
  have ht3 : strcasecmp_eq "byte" "double" = false := by decide
  have ht4 : strcasecmp_eq "byte" "byte" = true := by decide
  rw [notify_notification_set_hint_variant, ht1, ht2, ht3, ht4]
  by_cases h : guint64_to_gint (g_ascii_strtoull value) < 0 ∨
      guint64_to_gint (g_ascii_strtoull value) > 255
  · simp only [Bool.false_eq_true, if_false, if_true, if_pos h]
  · cases conv_error <;> simp only [Bool.false_eq_true, if_false, if_true, if_neg h]

/-- C4, at the value text `4294967301` (which is `2^32 + 5`): the call for a hint of type
`byte` returns `TRUE`, reports no error and stores the byte `5`.  The conversion `(gint)`
keeps the low 32 bits before the range is tested. -/
theorem set_hint_variant_byte_4294967301 :
    g_ascii_strtoull "4294967301" = 4294967301 ∧
    guint64_to_gint (g_ascii_strtoull "4294967301") = 5 ∧
    (notify_notification_set_hint_variant (fun _ => gdouble_one) false sample_record
      "byte" "k" "4294967301").ret = true ∧
    (notify_notification_set_hint_variant (fun _ => gdouble_one) false sample_record
      "byte" "k" "4294967301").error = none ∧
    g_hash_table_lookup
      (notify_notification_set_hint_variant (fun _ => gdouble_one) false sample_record
        "byte" "k" "4294967301").priv.hints "k" = some (GValue.uchar 5) := by
  have h1 : g_ascii_strtoull "4294967301" = 4294967301 := by decide
  have h2 : guint64_to_gint (g_ascii_strtoull "4294967301") = 5 := by rw [h1]; decide
  have ht1 : strcasecmp_eq "byte" "string" = false := by decide
  have ht2 : strcasecmp_eq "byte" "int" = false := by decide
  have ht3 : strcasecmp_eq "byte" "double" = false := by decide
  have ht4 : strcasecmp_eq "byte" "byte" = true := by decide
  refine ⟨h1, h2, ?_, ?_, ?_⟩ <;>
    simp [notify_notification_set_hint_variant, ht1, ht2, ht3, ht4, h2,
      notify_notification_set_hint_byte, g_hash_table_lookup_insert_self, to_guchar]

/-- A value text whose low 32 bits, read as a `gint`, fall outside `[0, 255]` is refused
for a hint of type `byte`: the call returns `FALSE`, reports an error, leaves the record
as it was and sets `conv_error`. -/
theorem set_hint_variant_byte_refused (g_strtod : String → gdouble) (conv_error : Bool)
    (n : NotifyNotificationPrivate) (key value : String)
    (h : guint64_to_gint (g_ascii_strtoull value) < 0 ∨
      guint64_to_gint (g_ascii_strtoull value) > 255) :
    (notify_notification_set_hint_variant g_strtod conv_error n "byte" key value).ret = false ∧
    (notify_notification_set_hint_variant g_strtod conv_error n "byte" key value).error ≠ none ∧
    (notify_notification_set_hint_variant g_strtod conv_error n "byte" key value).priv = n ∧
    (notify_notification_set_hint_variant g_strtod conv_error n "byte" key value).conv_error =
      true := by
  rw [set_hint_variant_byte_eq, if_pos h]
  simp

/-- A value text whose low 32 bits, read as a `gint`, lie in `[0, 255]` is accepted for a
hint of type `byte` when no earlier conversion failed: the call returns `TRUE` and stores
that number as a byte. -/
theorem set_hint_variant_byte_accepted (g_strtod : String → gdouble)
    (n : NotifyNotificationPrivate) (key value : String)
    (h0 : 0 ≤ guint64_to_gint (g_ascii_strtoull value))
    (h1 : guint64_to_gint (g_ascii_strtoull value) ≤ 255) :
    (notify_notification_set_hint_variant g_strtod false n "byte" key value).ret = true ∧
    (notify_notification_set_hint_variant g_strtod false n "byte" key value).error = none ∧
    (notify_notification_set_hint_variant g_strtod false n "byte" key value).priv =
      { n with
        hints := (g_hash_table_insert n.hints key
          (GValue.uchar (guint64_to_gint (g_ascii_strtoull value)).toNat)) } := by
  have hn : ¬ (guint64_to_gint (g_ascii_strtoull value) < 0 ∨
      guint64_to_gint (g_ascii_strtoull value) > 255) := by omega
  have hm : (guint64_to_gint (g_ascii_strtoull value)).toNat % 256 =
      (guint64_to_gint (g_ascii_strtoull value)).toNat := by omega
  rw [set_hint_variant_byte_eq, if_neg hn]
  simp [notify_notification_set_hint_byte, to_guchar, hm]

/-- The value texts `300`, `256` and `-1` convert to numbers outside `[0, 255]`. -/
theorem byte_texts_out_of_range :
    guint64_to_gint (g_ascii_strtoull "300") = 300 ∧
    guint64_to_gint (g_ascii_strtoull "256") = 256 ∧
    guint64_to_gint (g_ascii_strtoull "-1") = -1 := by
  decide

/-- The value texts `0`, `7` and `255` convert to numbers in `[0, 255]`. -/
theorem byte_texts_in_range :
    guint64_to_gint (g_ascii_strtoull "0") = 0 ∧
    guint64_to_gint (g_ascii_strtoull "7") = 7 ∧
    guint64_to_gint (g_ascii_strtoull "255") = 255 := by
  decide

/-! ## Construction and showing -/

/-- The record `notify_notification_new` builds from a summary and a message that are
not `NULL`. -/
theorem notify_notification_new_eq (summary message : String) (icon : Option String)
    (attach : Option GtkWidget) :
    notify_notification_new (some summary) (some message) icon attach =
      some { notify_notification_init with
        summary := some summary, message := some message, icon_name := icon,
        attached_widget := attach } := by
  cases attach <;> simp [notify_notification_new, g_strdup, notify_notification_init]

/-- The pre-show hook writes the hint table and the cached position only. -/
theorem update_applet_hints_frame (n : NotifyNotificationPrivate) :
    (_notify_notification_update_applet_hints n).2 =
      { n with
        hints := (_notify_notification_update_applet_hints n).2.hints
        widget_old_x := (_notify_notification_update_applet_hints n).2.widget_old_x
        widget_old_y := (_notify_notification_update_applet_hints n).2.widget_old_y } := by
  rcases n with ⟨id, s, m, i, t, a, hs, aw, ox, oy, ud, uf, up, px⟩
  unfold _notify_notification_update_applet_hints
  cases aw with
  | none => rfl
  | some w =>
    simp only [notify_notification_set_hint_int32]
    split_ifs <;> rfl

/-- The pre-show hook does not read the proxy. -/
theorem update_applet_hints_proxy (n : NotifyNotificationPrivate) (p : Option DBusGProxy) :
    (_notify_notification_update_applet_hints { n with proxy := p }).2 =
      { (_notify_notification_update_applet_hints n).2 with proxy := p } := by
  rcases n with ⟨id, s, m, i, t, a, hs, aw, ox, oy, ud, uf, up, px⟩
  unfold _notify_notification_update_applet_hints
  cases aw with
  | none => rfl
  | some w =>
    simp only [notify_notification_set_hint_int32]
    split_ifs <;> rfl

/-- Without a widget the pre-show hook changes nothing. -/
theorem update_applet_hints_no_widget (n : NotifyNotificationPrivate)
    (h : n.attached_widget = none) :
    _notify_notification_update_applet_hints n = (false, n) := by
  unfold _notify_notification_update_applet_hints
  rw [h]

/-- What `notify_notification_show` does when the record has a proxy or the session bus
is handed out: one `Notify` call, whose reply decides the result. -/
theorem notify_notification_show_eq (app_name : String) (bus : Bool)
    (server : NotifyCall → Option Nat) (n : NotifyNotificationPrivate)
    (h : n.proxy ≠ none ∨ bus = true) :
    notify_notification_show app_name bus server n =
      match server (notify_call_arguments app_name (record_at_notify n)) with
      | none =>
        ⟨false, record_at_notify n, some (notify_call_arguments app_name (record_at_notify n))⟩
      | some id =>
        ⟨true, { record_at_notify n with id := id },
          some (notify_call_arguments app_name (record_at_notify n))⟩ := by
  unfold notify_notification_show record_at_notify
  cases hp : n.proxy with
  | some p =>
    have e : (_notify_notification_update_applet_hints n).2 =
        { (_notify_notification_update_applet_hints n).2 with proxy := some p } := by
      conv_lhs => rw [update_applet_hints_frame n]
      rw [update_applet_hints_frame n, hp]
    have hpx : (_notify_notification_update_applet_hints n).2.proxy = some p := by
      rw [update_applet_hints_frame n]
      exact hp
    simp only [Option.getD_some]
    rw [← e, hpx]
  | none =>
    have hb : bus = true := by
      rcases h with h | h
      · exact absurd hp h
      · exact h
    subst hb
    simp only [if_true, Option.getD_none, update_applet_hints_proxy]

/-- Without a proxy and without the session bus `notify_notification_show` fails
before any call and leaves the record as it was. -/
theorem notify_notification_show_no_bus (app_name : String)
    (server : NotifyCall → Option Nat) (n : NotifyNotificationPrivate)
    (h : n.proxy = none) :
    notify_notification_show app_name false server n = ⟨false, n, none⟩ := by
  unfold notify_notification_show
  rw [h]
  rfl

/-- The arguments of the `Notify` call, written out in the fields of the record that
`notify_notification_show` was given. -/
theorem notify_call_arguments_at_notify (app_name : String) (n : NotifyNotificationPrivate) :
    notify_call_arguments app_name (record_at_notify n) =
      { app_name := app_name
        icon := n.icon_name.getD ""
        replace_id := n.id
        summary := n.summary
        body := n.message
        actions := n.actions
        hints := (_notify_notification_update_applet_hints n).2.hints
        timeout := n.timeout } := by
  unfold notify_call_arguments record_at_notify
  rw [update_applet_hints_frame n]
  cases n.icon_name <;> rfl

/-- C5, the constructor at an empty summary: `notify_notification_new ("", "", NULL, NULL)`
does not fail; it returns a record whose summary is the empty text. -/
theorem notify_notification_new_empty_summary :
    notify_notification_new (some "") (some "") none none =
        some { notify_notification_init with summary := some "", message := some "" } ∧
      notify_notification_new (some "") (some "") none none ≠ none := by
  rw [notify_notification_new_eq]
  exact ⟨rfl, by simp⟩

/-- C5 as the code has it: the constructor accepts every summary and message that are not
`NULL`, the empty summary included, and gives up (by assertion) when the summary or the
message is `NULL`; it is `main` of `notify-send` that refuses a missing or empty summary:
when `--version` is not given it ends with `exit (1)` before a record exists (with
`--version`, after successful option parsing, it ends with `exit (0)` and does not look
at the summary).  With a summary that is not empty and an empty body the constructor
succeeds, `main` hands the empty text to its constructor as the body, and the `Notify`
call of a later `notify_notification_show` carries the empty text as its body. -/
theorem empty_summary_refused_by_main (summary : String) (hs : summary ≠ "")
    (icon : Option String) (attach : Option GtkWidget) :
    (∀ (s m : String) (i : Option String) (a : Option GtkWidget),
      notify_notification_new (some s) (some m) i a =
        some { notify_notification_init with
          summary := some s, message := some m, icon_name := i, attached_widget := a }) ∧
    (∀ (m i : Option String) (a : Option GtkWidget),
      notify_notification_new none m i a = none) ∧
    (∀ (s i : Option String) (a : Option GtkWidget),
      notify_notification_new s none i a = none) ∧
    (∀ (new_record : String → Option String → Option String → NotifyNotificationPrivate)
        (retval : Bool) (rest : List String) (icons : Option String) (init_ok : Bool),
      main_until_new new_record retval false none icons init_ok = MainOutcome.exit 1 ∧
      main_until_new new_record retval false (some []) icons init_ok = MainOutcome.exit 1 ∧
      main_until_new new_record retval false (some ("" :: rest)) icons init_ok =
        MainOutcome.exit 1) ∧
    (∀ (new_record : String → Option String → Option String → NotifyNotificationPrivate)
        (n_text : Option (List String)) (icons : Option String) (init_ok : Bool),
      main_until_new new_record true true n_text icons init_ok = MainOutcome.exit 0) ∧
    notify_notification_new (some summary) (some "") icon attach =
      some { notify_notification_init with
        summary := some summary, message := some "", icon_name := icon,
        attached_widget := attach } ∧
    (∀ new_record : String → Option String → Option String → NotifyNotificationPrivate,
      main_until_new new_record true false (some [summary, ""]) none true =
        MainOutcome.running (new_record summary (some "") none)) ∧
    (∀ (app_name : String) (server : NotifyCall → Option Nat),
      ((notify_notification_show app_name true server
        { notify_notification_init with
          summary := some summary, message := some "", icon_name := icon,
          attached_widget := attach }).call.map (fun c => c.body)) = some (some "")) := by
  refine ⟨fun s m i a => notify_notification_new_eq s m i a, ?_, ?_, ?_, ?_,
    notify_notification_new_eq summary "" icon attach, ?_, ?_⟩
  · intro m i a
    simp [notify_notification_new]
  · intro s i a
    simp [notify_notification_new]
  · intro new_record retval rest icons init_ok
    cases retval <;> simp [main_until_new]
  · intro new_record n_text icons init_ok
    simp [main_until_new]
  · intro new_record
    have hc : g_strcompress "" = "" := by decide
    simp [main_until_new, hs, hc]
  · intro app_name server
    rw [notify_notification_show_eq _ _ _ _ (Or.inr rfl), notify_call_arguments_at_notify]
    cases server _ <;> rfl

/-- The summary `"Hello"` is not empty: the constructor produces the record, `main`
hands `"Hello"` and the empty body to its constructor, the empty summary ends `main` with
`exit (1)`, and the `Notify` call of the record carries the empty body. -/
theorem empty_summary_refused_by_main_witness :
    "Hello" ≠ "" ∧
    notify_notification_new (some "Hello") (some "") none none = some sample_record ∧
    main_until_new sample_new_record true false (some ["Hello", ""]) none true =
      MainOutcome.running sample_record ∧
    main_until_new sample_new_record true false (some [""]) none true = MainOutcome.exit 1 ∧
    ((notify_notification_show "notify-send" true sample_server sample_record).call.map
      (fun c => c.body)) = some (some "") :=
  have h := empty_summary_refused_by_main "Hello" (by decide) none none
  ⟨by decide, h.2.2.2.2.2.1, h.2.2.2.2.2.2.1 sample_new_record,
    (h.2.2.2.1 sample_new_record true [] none true).2.2,
    h.2.2.2.2.2.2.2 "notify-send" sample_server⟩

/-! ## The replace id and the arguments of `Notify` -/

/-- C6: a record fresh from the constructor has the id 0 and its first
`notify_notification_show` sends `replace_id = 0`; and when a show succeeds, the id `r`
that the server returned is the record's id afterwards, and the next show of that record
sends `replace_id = r`, whatever the bus and the server do then. -/
theorem show_replace_id (n : NotifyNotificationPrivate) (app_name : String) (bus : Bool)
    (server : NotifyCall → Option Nat)
    (h : (notify_notification_show app_name bus server n).ret = true) :
    (∀ (summary message : String) (icon : Option String) (attach : Option GtkWidget)
        (app1 : String) (server1 : NotifyCall → Option Nat),
      ∃ fresh : NotifyNotificationPrivate,
        notify_notification_new (some summary) (some message) icon attach = some fresh ∧
        fresh.id = 0 ∧
        ((notify_notification_show app1 true server1 fresh).call.map
          (fun c => c.replace_id)) = some 0) ∧
    ∃ (c : NotifyCall) (r : Nat),
      (notify_notification_show app_name bus server n).call = some c ∧
      c.replace_id = n.id ∧
      server c = some r ∧
      (notify_notification_show app_name bus server n).priv.id = r ∧
      ∀ (app2 : String) (bus2 : Bool) (server2 : NotifyCall → Option Nat),
        ((notify_notification_show app2 bus2 server2
          (notify_notification_show app_name bus server n).priv).call.map
            (fun c => c.replace_id)) = some r := by
  constructor
  · intro summary message icon attach app1 server1
    refine ⟨_, notify_notification_new_eq summary message icon attach, rfl, ?_⟩
    rw [notify_notification_show_eq _ _ _ _ (Or.inr rfl), notify_call_arguments_at_notify]
    cases server1 _ <;> rfl
  · have hpb : n.proxy ≠ none ∨ bus = true := by
      by_contra hcon
      push_neg at hcon
      obtain ⟨hp, hb⟩ := hcon
      have hb2 : bus = false := by simpa using hb
      rw [hb2, notify_notification_show_no_bus _ _ _ hp] at h
      exact Bool.false_ne_true h
    rw [notify_notification_show_eq _ _ _ _ hpb] at h ⊢
    cases hs : server (notify_call_arguments app_name (record_at_notify n)) with
    | none =>
      rw [hs] at h
      exact absurd h Bool.false_ne_true
    | some r =>
      refine ⟨notify_call_arguments app_name (record_at_notify n), r, rfl, ?_, hs, rfl, ?_⟩
      · rw [notify_call_arguments_at_notify]
      · intro app2 bus2 server2
        have hp2 : ({ record_at_notify n with id := r } : NotifyNotificationPrivate).proxy ≠ none ∨
            bus2 = true := Or.inl (by simp [record_at_notify])
        simp only []
        rw [notify_notification_show_eq _ _ _ _ hp2, notify_call_arguments_at_notify]
        cases server2 _ <;> rfl

/-- The sample record is shown with success: the first call sends `replace_id = 0`, the
server answers 7, and the second call sends `replace_id = 7`. -/
theorem show_replace_id_witness :
    (notify_notification_show "notify-send" true sample_server sample_record).ret = true ∧
    ((notify_notification_show "notify-send" true sample_server sample_record).call.map
      (fun c => c.replace_id)) = some 0 ∧
    sample_shown.id = 7 ∧
    ((notify_notification_show "notify-send" false (fun _ => none) sample_shown).call.map
      (fun c => c.replace_id)) = some 7 := by
  have h0 : (notify_notification_show "notify-send" true sample_server sample_record).ret =
      true := by
    rw [notify_notification_show_eq _ _ _ _ (Or.inr rfl)]
    rfl
  obtain ⟨hfresh, c, r, hc, hid, hr, hpriv, hnext⟩ :=
    show_replace_id sample_record "notify-send" true sample_server h0
  have hr7 : r = 7 := by
    have : sample_server c = some 7 := rfl
    rw [this] at hr
    exact (Option.some.inj hr).symm
  subst hr7
  refine ⟨h0, ?_, hpriv, hnext "notify-send" false (fun _ => none)⟩
  rw [hc]
  exact congrArg some hid

/-- C7: when the record has a proxy or the session bus is handed out,
`notify_notification_show` makes one `Notify` call whose arguments are, in this order, the
application name, the icon name or the empty text when that is `NULL`, the record's id,
its summary, its message, its action list, its hint table and its timeout.  The hint
table is the one the record holds at the call, after the pre-show hook; the record keeps
it, and without a widget it is the table the record had before. -/
theorem show_notify_arguments (n : NotifyNotificationPrivate) (app_name : String)
    (bus : Bool) (server : NotifyCall → Option Nat) (h : n.proxy ≠ none ∨ bus = true) :
    (notify_notification_show app_name bus server n).call =
      some { app_name := app_name
             icon := n.icon_name.getD ""
             replace_id := n.id
             summary := n.summary
             body := n.message
             actions := n.actions
             hints := (_notify_notification_update_applet_hints n).2.hints
             timeout := n.timeout } ∧
    (notify_notification_show app_name bus server n).priv.hints =
      (_notify_notification_update_applet_hints n).2.hints ∧
    (n.attached_widget = none →
      (_notify_notification_update_applet_hints n).2.hints = n.hints) := by
  refine ⟨?_, ?_, ?_⟩
  · rw [notify_notification_show_eq _ _ _ _ h, notify_call_arguments_at_notify]
    cases server _ <;> rfl
  · rw [notify_notification_show_eq _ _ _ _ h]
    cases server _ <;> rfl
  · intro hw
    rw [update_applet_hints_no_widget n hw]

/-- The sample record has no proxy yet; with the session bus at hand its `Notify` call
is `("notify-send", "", 0, "Hello", "", [], {}, -1)`. -/
theorem show_notify_arguments_witness :
    (sample_record.proxy ≠ none ∨ true = true) ∧
    (notify_notification_show "notify-send" true sample_server sample_record).call =
      some { app_name := "notify-send"
             icon := ""
             replace_id := 0
             summary := some "Hello"
             body := some ""
             actions := []
             hints := g_hash_table_new_full
             timeout := -1 } :=
  ⟨Or.inr rfl, (show_notify_arguments sample_record "notify-send" true sample_server
    (Or.inr rfl)).1⟩

/-! ## The `NotificationClosed` signal -/

/-- C8, at the sample record that was shown and got the id 7: two deliveries of
`NotificationClosed (7)` emit `closed` twice, not once. -/
theorem closed_twice_emits_twice :
    sample_shown.id = 7 ∧
    (deliver_closed [7, 7] sample_shown).1 = 2 ∧
    (deliver_closed [7, 7] sample_shown).1 ≠ 1 := by
  have hid : sample_shown.id = 7 := rfl
  simp [deliver_closed, _close_signal_handler, hid]

/-- C8 as the code has it: a `NotificationClosed` signal that carries the record's id
emits `closed` once at every delivery and leaves the record as it is; two deliveries
emit it twice. -/
theorem closed_emits_at_every_delivery (n : NotifyNotificationPrivate) :
    _close_signal_handler n.id n = (1, n) ∧
    deliver_closed [n.id] n = (1, n) ∧
    deliver_closed [n.id, n.id] n = (2, n) := by
  simp [deliver_closed, _close_signal_handler]

/-- C9: a `NotificationClosed` signal whose id differs from the record's id emits nothing
and leaves the record as it is. -/
theorem closed_other_id_ignored (n : NotifyNotificationPrivate) (s : Nat) (h : s ≠ n.id) :
    _close_signal_handler s n = (0, n) ∧ deliver_closed [s] n = (0, n) := by
  simp [deliver_closed, _close_signal_handler, h]

/-- The sample record with the id 7 ignores `NotificationClosed (8)`. -/
theorem closed_other_id_ignored_witness :
    8 ≠ sample_shown.id ∧ _close_signal_handler 8 sample_shown = (0, sample_shown) :=
  have h : 8 ≠ sample_shown.id := by
    have hid : sample_shown.id = 7 := rfl
    rw [hid]
    decide
  ⟨h, (closed_other_id_ignored sample_shown 8 h).1⟩

/-! ## Update -/

/-- C10: `notify_notification_update` returns `TRUE`, stores the given summary, message
and icon, sets `updates_pending`, and leaves every other field as it was. -/
theorem update_sets_text_only (n : NotifyNotificationPrivate)
    (summary message icon : Option String) :
    (notify_notification_update n summary message icon).1 = true ∧
    (notify_notification_update n summary message icon).2.summary = summary ∧
    (notify_notification_update n summary message icon).2.message = message ∧
    (notify_notification_update n summary message icon).2.icon_name = icon ∧
    (notify_notification_update n summary message icon).2.updates_pending = true ∧
    (notify_notification_update n summary message icon).2.hints = n.hints ∧
    (notify_notification_update n summary message icon).2.actions = n.actions ∧
    (notify_notification_update n summary message icon).2.id = n.id ∧
    (notify_notification_update n summary message icon).2.timeout = n.timeout ∧
    (notify_notification_update n summary message icon).2.attached_widget =
      n.attached_widget ∧
    (notify_notification_update n summary message icon).2.widget_old_x = n.widget_old_x ∧
    (notify_notification_update n summary message icon).2.widget_old_y = n.widget_old_y ∧
    (notify_notification_update n summary message icon).2.user_data = n.user_data ∧
    (notify_notification_update n summary message icon).2.user_data_free_func =
      n.user_data_free_func ∧
    (notify_notification_update n summary message icon).2.proxy = n.proxy := by
  simp [notify_notification_update, g_strdup]

/-! ## User data -/

/-- C11, at the data pointers `0x1000`, `0x3000` and the destructors `0x2000`, `0x4000`:
after `set_user_data (0x1000, 0x2000)` the stored free function is `0x1000`, the data
pointer itself; the following `set_user_data (0x3000, 0x4000)` calls through the pointer
`0x1000`, never through the destructor `0x2000`, and afterwards the stored data is
`0x3000` and the stored free function is `0x3000`, not `0x4000`. -/
theorem set_user_data_stores_data_as_free_func :
    (notify_notification_set_user_data sample_record 0x1000 0x2000).priv.user_data = 0x1000 ∧
    (notify_notification_set_user_data sample_record 0x1000 0x2000).priv.user_data_free_func =
      0x1000 ∧
    (notify_notification_set_user_data
      (notify_notification_set_user_data sample_record 0x1000 0x2000).priv
      0x3000 0x4000).calls = [(0x1000, 0x1000)] ∧
    (notify_notification_set_user_data
      (notify_notification_set_user_data sample_record 0x1000 0x2000).priv
      0x3000 0x4000).priv.user_data = 0x3000 ∧
    (notify_notification_set_user_data
      (notify_notification_set_user_data sample_record 0x1000 0x2000).priv
      0x3000 0x4000).priv.user_data_free_func = 0x3000 := by
  simp [notify_notification_set_user_data]

/-- Whatever destructors are given, `notify_notification_set_user_data` stores the data
pointer as the free function, and a second call on data that is not `NULL` makes one
call, through the first data pointer and on that pointer. -/
theorem set_user_data_twice (n : NotifyNotificationPrivate) (d1 f1 d2 f2 : Nat)
    (hd : d1 ≠ 0) :
    (notify_notification_set_user_data
      (notify_notification_set_user_data n d1 f1).priv d2 f2).calls = [(d1, d1)] ∧
    (notify_notification_set_user_data
      (notify_notification_set_user_data n d1 f1).priv d2 f2).priv.user_data = d2 ∧
    (notify_notification_set_user_data
      (notify_notification_set_user_data n d1 f1).priv d2 f2).priv.user_data_free_func = d2 := by
  simp [notify_notification_set_user_data, hd]

/-! ## Actions -/

/-- C12, at the sample record and the action `("1", "Open")`:
`notify_notification_add_action` returns `FALSE`, the action list stays empty, and the
next `Notify` call carries no action. -/
theorem add_action_does_not_append :
    (notify_notification_add_action sample_record (some "1") (some "Open")
      handle_action_callback).1 = false ∧
    (notify_notification_add_action sample_record (some "1") (some "Open")
      handle_action_callback).2.actions = [] ∧
    ((notify_notification_show "notify-send" true sample_server
      (notify_notification_add_action sample_record (some "1") (some "Open")
        handle_action_callback).2).call.map (fun c => c.actions)) = some [] := by
  refine ⟨rfl, rfl, ?_⟩
  rw [notify_notification_show_eq _ _ _ _ (Or.inr rfl), notify_call_arguments_at_notify]
  rfl

/-- C12 as the code has it: `notify_notification_add_action` returns `FALSE` and leaves
the record as it was; the action list does not grow, and the `Notify` call of a
following show carries the action list the record had before. -/
theorem add_action_changes_nothing (n : NotifyNotificationPrivate)
    (action label : Option String) (callback : Nat) :
    notify_notification_add_action n action label callback = (false, n) ∧
    (notify_notification_add_action n action label callback).2.actions = n.actions ∧
    (∀ (app_name : String) (server : NotifyCall → Option Nat),
      ((notify_notification_show app_name true server
        (notify_notification_add_action n action label callback).2).call.map
          (fun c => c.actions)) = some n.actions) := by
  refine ⟨rfl, rfl, ?_⟩
  intro app_name server
  rw [notify_notification_show_eq _ _ _ _ (Or.inr rfl), notify_call_arguments_at_notify]
  cases server _ <;> rfl

/-! ## The flag `updates_pending` -/

/-- C13, at a hint setter: `notify_notification_set_hint_int32` on the sample record, whose
flag `updates_pending` is `FALSE`, leaves the flag `FALSE`. -/
theorem set_hint_leaves_updates_pending_false :
    sample_record.updates_pending = false ∧
    (notify_notification_set_hint_int32 sample_record "x" 5).1 = true ∧
    (notify_notification_set_hint_int32 sample_record "x" 5).2.updates_pending = false ∧
    (notify_notification_add_action sample_record (some "1") (some "Open")
      handle_action_callback).2.updates_pending = false := by
  exact ⟨rfl, rfl, rfl, rfl⟩

/-- C13 as the code has it: `notify_notification_update` leaves `updates_pending` set;
the hint setters (int32, double, byte, byte array, string, category, urgency) and
`notify_notification_add_action` leave the flag as it was.  None of these calls touches
the proxy: they make no call on the bus. -/
theorem updates_pending_set_by_update_only (n : NotifyNotificationPrivate) :
    (∀ summary message icon : Option String,
      (notify_notification_update n summary message icon).2.updates_pending = true ∧
      (notify_notification_update n summary message icon).2.proxy = n.proxy) ∧
    (∀ (k : String) (s : HintSetter),
      (s.run n k).2.updates_pending = n.updates_pending ∧ (s.run n k).2.proxy = n.proxy) ∧
    (∀ category : Option String,
      (notify_notification_set_category n category).2.updates_pending = n.updates_pending ∧
      (notify_notification_set_category n category).2.proxy = n.proxy) ∧
    (∀ l : NotifyUrgency,
      (notify_notification_set_urgency n l).2.updates_pending = n.updates_pending ∧
      (notify_notification_set_urgency n l).2.proxy = n.proxy) ∧
    (∀ (action label : Option String) (callback : Nat),
      (notify_notification_add_action n action label callback).2.updates_pending =
        n.updates_pending ∧
      (notify_notification_add_action n action label callback).2.proxy = n.proxy) := by
  refine ⟨fun _ _ _ => ⟨rfl, rfl⟩, ?_, fun _ => ⟨rfl, rfl⟩, fun _ => ⟨rfl, rfl⟩,
    fun _ _ _ => ⟨rfl, rfl⟩⟩
  intro k s
  obtain ⟨v, hv, -⟩ := HintSetter.run_eq s n k
  rw [hv]
  exact ⟨rfl, rfl⟩

/-! ## Category and urgency -/

/-- C14: `notify_notification_set_category` gives what `hints.set ("category", String (t))`
gives, and `notify_notification_set_urgency` gives what `hints.set ("urgency", Byte (l))`
gives, where the byte is 0 for Low, 1 for Normal and 2 for Critical; each returns the
result of the hint setter it calls. -/
theorem category_and_urgency_are_hints (n : NotifyNotificationPrivate)
    (t : Option String) (l : NotifyUrgency) :
    notify_notification_set_category n t = spec_hints_set n "category" (GValue.string t) ∧
    notify_notification_set_urgency n l =
      spec_hints_set n "urgency" (GValue.uchar (spec_urgency_level l)) ∧
    notify_notification_set_category n t =
      notify_notification_set_hint_string n "category" t ∧
    notify_notification_set_urgency n l =
      notify_notification_set_hint_byte n "urgency" (spec_urgency_level l) ∧
    spec_urgency_level .NOTIFY_URGENCY_LOW = 0 ∧
    spec_urgency_level .NOTIFY_URGENCY_NORMAL = 1 ∧
    spec_urgency_level .NOTIFY_URGENCY_CRITICAL = 2 := by
  refine ⟨rfl, ?_, rfl, ?_, rfl, rfl, rfl⟩
  · cases l <;> rfl
  · cases l <;> rfl

/-! ## Clearing the hints -/

/-- The table `notify_notification_clear_hints` leaves has no entry. -/
theorem clear_hints_entries (n : NotifyNotificationPrivate) :
    (notify_notification_clear_hints n).hints.entries = [] := by
  simp [notify_notification_clear_hints, g_hash_table_foreach_remove]

/-- C15, at a record with a widget whose center (5, 0) is not the cached position (0, 0):
after `notify_notification_clear_hints` the next `Notify` call carries the hint `"x"`,
which the pre-show hook has set again. -/
theorem clear_hints_then_show_with_widget :
    (notify_notification_clear_hints sample_attached).hints.entries = [] ∧
    ((notify_notification_show "notify-send" true sample_server
      (notify_notification_clear_hints sample_attached)).call.map
        (fun c => g_hash_table_lookup c.hints "x")) = some (some (GValue.int 5)) ∧
    ((notify_notification_show "notify-send" true sample_server
      (notify_notification_clear_hints sample_attached)).call.map
        (fun c => g_hash_table_size c.hints)) = some 1 := by
  refine ⟨clear_hints_entries _, ?_, ?_⟩
  · rw [notify_notification_show_eq _ _ _ _ (Or.inr rfl), notify_call_arguments_at_notify]
    rfl
  · rw [notify_notification_show_eq _ _ _ _ (Or.inr rfl), notify_call_arguments_at_notify]
    rfl

/-- The pre-show hook for a record with a widget, in terms of the widget's center: each
coordinate that differs from the cached one is written to its hint and to the cache. -/
theorem update_applet_hints_eq (n : NotifyNotificationPrivate) (w : GtkWidget)
    (h : n.attached_widget = some w) :
    _notify_notification_update_applet_hints n =
      (decide ((widget_center w).1 ≠ n.widget_old_x) ||
          decide ((widget_center w).2 ≠ n.widget_old_y),
        { n with
          hints :=
            (if (widget_center w).2 ≠ n.widget_old_y then
              g_hash_table_insert
                (if (widget_center w).1 ≠ n.widget_old_x then
                  g_hash_table_insert n.hints "x" (GValue.int (widget_center w).1)
                else n.hints) "y" (GValue.int (widget_center w).2)
            else if (widget_center w).1 ≠ n.widget_old_x then
              g_hash_table_insert n.hints "x" (GValue.int (widget_center w).1)
            else n.hints)
          widget_old_x := (widget_center w).1
          widget_old_y := (widget_center w).2 }) := by
  rcases n with ⟨id, s, m, i, t, a, hs, aw, ox, oy, ud, uf, up, px⟩
  simp only at h
  subst h
  simp only [_notify_notification_update_applet_hints, widget_center,
    notify_notification_set_hint_int32]
  split_ifs with h1 h2 h2 <;> simp_all

/-- C15 as the code has it: after `notify_notification_clear_hints` the hint table has no
entry and every other field of the record is as before.  The `Notify` call of the next
show carries an empty table when no widget is attached, or when the center of the
attached widget is the cached position; in every case it carries no hint other than the
position hints `"x"` and `"y"` that the pre-show hook may set. -/
theorem clear_hints_then_show (n : NotifyNotificationPrivate) :
    (notify_notification_clear_hints n).hints.entries = [] ∧
    g_hash_table_size (notify_notification_clear_hints n).hints = 0 ∧
    notify_notification_clear_hints n =
      { n with hints := (notify_notification_clear_hints n).hints } ∧
    (n.attached_widget = none →
      ∀ (app_name : String) (server : NotifyCall → Option Nat),
        ((notify_notification_show app_name true server
          (notify_notification_clear_hints n)).call.map (fun c => c.hints.entries)) =
            some []) ∧
    (∀ w : GtkWidget, n.attached_widget = some w →
      widget_center w = (n.widget_old_x, n.widget_old_y) →
      ∀ (app_name : String) (server : NotifyCall → Option Nat),
        ((notify_notification_show app_name true server
          (notify_notification_clear_hints n)).call.map (fun c => c.hints.entries)) =
            some []) ∧
    (∀ (app_name : String) (server : NotifyCall → Option Nat) (k : String),
      k ≠ "x" → k ≠ "y" →
        ((notify_notification_show app_name true server
          (notify_notification_clear_hints n)).call.map
            (fun c => g_hash_table_lookup c.hints k)) = some none) := by
  have he := clear_hints_entries n
  refine ⟨he, by simp [g_hash_table_size, he], rfl, ?_, ?_, ?_⟩
  · intro hw app_name server
    have hw2 : (notify_notification_clear_hints n).attached_widget = none := hw
    rw [notify_notification_show_eq _ _ _ _ (Or.inr rfl), notify_call_arguments_at_notify,
      update_applet_hints_no_widget _ hw2]
    cases server _ <;> simp [he]
  · intro w hw hc app_name server
    have hw2 : (notify_notification_clear_hints n).attached_widget = some w := hw
    have hx : (widget_center w).1 = n.widget_old_x := by rw [hc]
    have hy : (widget_center w).2 = n.widget_old_y := by rw [hc]
    rw [notify_notification_show_eq _ _ _ _ (Or.inr rfl), notify_call_arguments_at_notify,
      update_applet_hints_eq _ w hw2]
    have ox : (notify_notification_clear_hints n).widget_old_x = n.widget_old_x := rfl
    have oy : (notify_notification_clear_hints n).widget_old_y = n.widget_old_y := rfl
    cases server _ <;> simp [he, hx, hy, ox, oy]
  · intro app_name server k hkx hky
    have hnone : g_hash_table_lookup (notify_notification_clear_hints n).hints k = none := by
      simp [g_hash_table_lookup, he]
    rw [notify_notification_show_eq _ _ _ _ (Or.inr rfl), notify_call_arguments_at_notify]
    have key : g_hash_table_lookup
        (_notify_notification_update_applet_hints (notify_notification_clear_hints n)).2.hints k =
        none := by
      cases hw : (notify_notification_clear_hints n).attached_widget with
      | none => rw [update_applet_hints_no_widget _ hw]; exact hnone
      | some w =>
        rw [update_applet_hints_eq _ w hw]
        simp only []
        split_ifs <;>
          simp only [g_hash_table_lookup_insert_other _ _ _ _ hkx,
            g_hash_table_lookup_insert_other _ _ _ _ hky, hnone]
    cases server _ <;> simp [key]

/-! ## The position hints -/

/-- C17, at the record attached to the sample widget: the center (5, 0) differs from the
cached position (0, 0), and after the refresh the hint `"x"` is `Int32 (5)`, but there is
no hint `"y"`: the coordinate `y` equals its cached value and is not written. -/
theorem applet_hints_one_coordinate :
    widget_center sample_widget = (5, 0) ∧
    (sample_attached.widget_old_x, sample_attached.widget_old_y) = (0, 0) ∧
    (_notify_notification_update_applet_hints sample_attached).1 = true ∧
    g_hash_table_lookup (_notify_notification_update_applet_hints sample_attached).2.hints
      "x" = some (GValue.int 5) ∧
    g_hash_table_lookup (_notify_notification_update_applet_hints sample_attached).2.hints
      "y" = none ∧
    g_hash_table_lookup (_notify_notification_update_applet_hints sample_attached).2.hints
      "y" ≠ some (GValue.int 0) := by
  have hy : g_hash_table_lookup
      (_notify_notification_update_applet_hints sample_attached).2.hints "y" = none := rfl
  refine ⟨by decide, rfl, rfl, rfl, hy, ?_⟩
  rw [hy]
  simp

/-- C17 as the code has it, for a record with an attached widget whose center is
`(x, y)`: the refresh compares each coordinate with its cached value on its own.  A
coordinate that differs is written to its hint (`"x"` or `"y"`, as `Int32`) and to the
cache; the hint of a coordinate that equals its cached value is left as it was.
Afterwards the cached position is `(x, y)`; an update is reported exactly when `(x, y)`
differs from the cached position; when both coordinates differ both hints are set; when
`(x, y)` is the cached position nothing changes; no other hint and no other field is
touched.  Without a widget the refresh changes nothing and reports no update. -/
theorem applet_hints_refresh (n : NotifyNotificationPrivate) (w : GtkWidget)
    (h : n.attached_widget = some w) :
    (_notify_notification_update_applet_hints n).2.widget_old_x = (widget_center w).1 ∧
    (_notify_notification_update_applet_hints n).2.widget_old_y = (widget_center w).2 ∧
    ((_notify_notification_update_applet_hints n).1 = true ↔
      widget_center w ≠ (n.widget_old_x, n.widget_old_y)) ∧
    ((widget_center w).1 ≠ n.widget_old_x →
      g_hash_table_lookup (_notify_notification_update_applet_hints n).2.hints "x" =
        some (GValue.int (widget_center w).1)) ∧
    ((widget_center w).2 ≠ n.widget_old_y →
      g_hash_table_lookup (_notify_notification_update_applet_hints n).2.hints "y" =
        some (GValue.int (widget_center w).2)) ∧
    ((widget_center w).1 = n.widget_old_x →
      g_hash_table_lookup (_notify_notification_update_applet_hints n).2.hints "x" =
        g_hash_table_lookup n.hints "x") ∧
    ((widget_center w).2 = n.widget_old_y →
      g_hash_table_lookup (_notify_notification_update_applet_hints n).2.hints "y" =
        g_hash_table_lookup n.hints "y") ∧
    (widget_center w = (n.widget_old_x, n.widget_old_y) →
      _notify_notification_update_applet_hints n = (false, n)) ∧
    (∀ k : String, k ≠ "x" → k ≠ "y" →
      g_hash_table_lookup (_notify_notification_update_applet_hints n).2.hints k =
        g_hash_table_lookup n.hints k) ∧
    (_notify_notification_update_applet_hints n).2 =
      { n with
        hints := (_notify_notification_update_applet_hints n).2.hints
        widget_old_x := (widget_center w).1
        widget_old_y := (widget_center w).2 } ∧
    (∀ m : NotifyNotificationPrivate, m.attached_widget = none →
      _notify_notification_update_applet_hints m = (false, m)) := by
  have hxy : ("x" : String) ≠ "y" := by decide
  have hyx : ("y" : String) ≠ "x" := by decide
  rw [update_applet_hints_eq n w h]
  refine ⟨rfl, rfl, ?_, ?_, ?_, ?_, ?_, ?_, ?_, rfl,
    fun m hm => update_applet_hints_no_widget m hm⟩
  · simp only [Bool.or_eq_true, decide_eq_true_eq, ne_eq, Prod.ext_iff]
    tauto
  · intro hx
    simp only []
    split_ifs
    · rw [g_hash_table_lookup_insert_other _ _ _ _ hxy, g_hash_table_lookup_insert_self]
    · rw [g_hash_table_lookup_insert_self]
  · intro hy
    simp only [if_pos hy]
    rw [g_hash_table_lookup_insert_self]
  · intro hx
    have hx2 : ¬ (widget_center w).1 ≠ n.widget_old_x := fun hne => hne hx
    simp only [if_neg hx2]
    split_ifs
    · rw [g_hash_table_lookup_insert_other _ _ _ _ hxy]
    · rfl
  · intro hy
    have hy2 : ¬ (widget_center w).2 ≠ n.widget_old_y := fun hne => hne hy
    simp only [if_neg hy2]
    split_ifs
    · rw [g_hash_table_lookup_insert_other _ _ _ _ hyx]
    · rfl
  · intro hc
    have hx : (widget_center w).1 = n.widget_old_x := by rw [hc]
    have hy : (widget_center w).2 = n.widget_old_y := by rw [hc]
    simp [hx, hy]
  · intro k hkx hky
    simp only []
    split_ifs <;>
      simp only [g_hash_table_lookup_insert_other _ _ _ _ hkx,
        g_hash_table_lookup_insert_other _ _ _ _ hky]

/-- The sample widget is attached to the sample record: the refresh sets the cached
position to its center (5, 0) and reports an update. -/
theorem applet_hints_refresh_witness :
    sample_attached.attached_widget = some sample_widget ∧
    (_notify_notification_update_applet_hints sample_attached).2.widget_old_x =
      (widget_center sample_widget).1 ∧
    (_notify_notification_update_applet_hints sample_attached).2.widget_old_y =
      (widget_center sample_widget).2 :=
  have h := applet_hints_refresh sample_attached sample_widget rfl
  ⟨rfl, h.1, h.2.1⟩

/-! ## The `--action` arguments -/

/-- C18, at an empty `--action` argument: the split of `""` has no piece, so the
argument gets neither the name `"1"` nor the label `""`; the loop has no defined result
and `main` does not reach `exit`. -/
theorem action_registration_empty :
    g_strsplit "" '=' 2 = [] ∧
    action_registration 1 "" = none ∧
    main_actions [""] 1 sample_record = none ∧
    main { sample_args with actions := some [""] } sample_env = MainOutcome.abort := by
  refine ⟨by decide, by decide, ?_, ?_⟩
  · have h : action_registration 1 "" = none := by decide
    simp [main_actions, h]
  · have h : action_registration 1 "" = none := by decide
    have hc : g_strcompress "body" = "body" := by decide
    simp [main, main_before_show, main_after_hints, main_until_new, sample_args, sample_env,
      notify_notification_new_eq, hc, server_lacks_actions, main_actions, h]

/-- Runs of `notify-send` with one malformed `--hint` argument each, in a world where
everything else works: a byte value above 255, an int value that does not start with a
digit, an unknown type, an argument without its three parts.  Each has a hint-parsing
error and exits with 1. -/
theorem main_malformed_hint_samples :
    (main { sample_args with hints := some ["byte:k:300"] } sample_env = MainOutcome.exit 1 ∧
      hint_parsing_error { sample_args with hints := some ["byte:k:300"] } sample_env = true) ∧
    (main { sample_args with hints := some ["int:x:abc"] } sample_env = MainOutcome.exit 1 ∧
      hint_parsing_error { sample_args with hints := some ["int:x:abc"] } sample_env = true) ∧
    (main { sample_args with hints := some ["colour:x:1"] } sample_env = MainOutcome.exit 1 ∧
      hint_parsing_error { sample_args with hints := some ["colour:x:1"] } sample_env = true) ∧
    (main { sample_args with hints := some ["x=1"] } sample_env = MainOutcome.exit 1 ∧
      hint_parsing_error { sample_args with hints := some ["x=1"] } sample_env = true) :=
  ⟨⟨by rfl, by decide⟩, ⟨by rfl, by decide⟩, ⟨by rfl, by decide⟩, ⟨by rfl, by decide⟩⟩

/-- Runs of `notify-send` whose byte hint is not a plain numeral below `2^32`, in a world
where everything else works: the values `abc` and `4294967301` are no decimal numerals
from 0 to 255, yet the run exits with 0, the bytes 0 and 5 being stored (compare
`set_hint_variant_byte_eq`). -/
theorem main_byte_hint_outside_plain :
    (byte_hints_plain ["byte:k:abc"] = false ∧
      hint_parsing_error { sample_args with hints := some ["byte:k:abc"] } sample_env = true ∧
      main { sample_args with hints := some ["byte:k:abc"] } sample_env =
        MainOutcome.exit 0) ∧
    (byte_hints_plain ["byte:k:4294967301"] = false ∧
      hint_parsing_error { sample_args with hints := some ["byte:k:4294967301"] }
        sample_env = true ∧
      main { sample_args with hints := some ["byte:k:4294967301"] } sample_env =
        MainOutcome.exit 0) :=
  ⟨⟨by decide, by decide, by rfl⟩, ⟨by decide, by decide, by rfl⟩⟩

/-- A run of `notify-send` with an `--action` argument against a server whose capability
list is not empty and lacks `"actions"`: a capability mismatch, and the exit code 1. -/
theorem main_capability_mismatch_sample :
    main { sample_args with actions := some ["ok=OK"] }
      { sample_env with server_caps := ["body", "icon-static"] } = MainOutcome.exit 1 ∧
    capability_mismatch { sample_args with actions := some ["ok=OK"] }
      { sample_env with server_caps := ["body", "icon-static"] } = true ∧
    main { sample_args with actions := some ["ok=OK"] }
      { sample_env with server_caps := ["body", "Actions"] } = MainOutcome.exit 0 :=
  ⟨by rfl, by decide, by rfl⟩
end Libnotify
